import Mathlib

/-!
# GDevelop Core: `InstructionMetadata` and `ParameterMetadata`

A shallow embedding of `Core/GDCore/Extensions/Metadata/InstructionMetadata.cpp`:
the two constructors of `InstructionMetadata`, the parameter-adding operations,
the two sentence-templating operations and the serialization pair of
`ParameterMetadata`, followed by the properties proved about them.

Conventions of the embedding.

* `gd::String` is `String`; a mutating member function takes the object as its
  first argument and returns the updated object (`return *this`).
* `std::vector<ParameterMetadata>` is `List ParameterMetadata`, `push_back`
  appends at the end, `size()` is the length.
* `size_t` arithmetic is arithmetic modulo `2 ^ SIZE_WIDTH`.
* The classification predicates `ParameterMetadata::IsObject` / `IsBehavior` and
  the localization macro `_` are declared in headers that are not part of the
  source at hand: the operations take them as the parameters `IsObject`,
  `IsBehavior` and `translate`.
-/

namespace gd

/-! ## Collaborators -/

/-- Modelled from the spec: the value held by one attribute of the structured
document (`GDCore/Serialization/SerializerElement.h` is not part of the source at
hand). The spec's attribute tree stores "string/bool-typed values". -/
inductive SerializerValue where
  | boolValue (b : Bool)
  | stringValue (s : String)
  deriving DecidableEq, Repr

/-- Modelled from the spec: `SerializerElement`, "an opaque key/value attribute
tree with typed getters/setters". Only its attributes matter here; every name
occurs at most once among the attributes written by `SetAttribute`. -/
structure SerializerElement where
  attributes : List (String × SerializerValue)
  deriving DecidableEq, Repr

/-- Modelled from the spec: `SetAttribute(name, value)`. The attribute `name` is
given the value `value`; a value stored earlier under the same name is replaced,
the other attributes are kept. -/
def SerializerElement.SetAttribute (element : SerializerElement) (name : String)
    (value : SerializerValue) : SerializerElement :=
  { attributes := (name, value) :: element.attributes.filter (fun kv => kv.1 != name) }

/-- Modelled from the spec: `GetStringAttribute(name, default)`. The stored
string, or `defaultValue` when the attribute is absent or does not hold a string
("missing or malformed serialized attributes degrade to documented
defaults"). -/
def SerializerElement.GetStringAttribute (element : SerializerElement) (name : String)
    (defaultValue : String) : String :=
  match element.attributes.lookup name with
  | some (SerializerValue.stringValue s) => s
  | _ => defaultValue

/-- Modelled from the spec: `GetBoolAttribute(name, default)`. The stored boolean,
or `defaultValue` when the attribute is absent or does not hold a boolean. -/
def SerializerElement.GetBoolAttribute (element : SerializerElement) (name : String)
    (defaultValue : Bool) : Bool :=
  match element.attributes.lookup name with
  | some (SerializerValue.boolValue b) => b
  | _ => defaultValue

/-- Width in bits of `size_t`. -/
def SIZE_WIDTH : Nat := 64

/-- Subtraction of two `size_t` values, `a - b` in C++: it wraps around modulo
`2 ^ SIZE_WIDTH` when `b` exceeds `a`. -/
def sizeSub (a b : Nat) : Nat :=
  (a % 2 ^ SIZE_WIDTH + (2 ^ SIZE_WIDTH - b % 2 ^ SIZE_WIDTH)) % 2 ^ SIZE_WIDTH

/-- Modelled from the spec: `gd::String::From(size_t)` (`GDCore/String.h` is not
part of the source at hand), the "decimal parameter index" of a positional
placeholder. -/
def From (value : Nat) : String :=
  Nat.repr value

/-- Scanning loop of `FindAndReplace` over the characters still to be read.
`skip` counts the characters of an occurrence found earlier that are still to be
passed over; with `skip = 0` an occurrence of `search` starting at the current
character is replaced by `replacement`, and any other character is copied. -/
def replaceFrom (search replacement : List Char) : Nat → List Char → List Char
  | _, [] => []
  | skip + 1, _ :: rest => replaceFrom search replacement skip rest
  | 0, c :: rest =>
    if search.isPrefixOf (c :: rest) then
      replacement ++ replaceFrom search replacement (search.length - 1) rest
    else
      c :: replaceFrom search replacement 0 rest

/-- Modelled from the spec: `gd::String::FindAndReplace(search, replacement)`
(`GDCore/String.cpp` is not part of the source at hand), the "textual
substitution" of a literal marker. Every occurrence of `search` is replaced, from
left to right; occurrences do not overlap and the inserted text is not scanned
again. The source only passes the three non-empty markers; for an empty `search`
the text is returned unchanged. -/
def FindAndReplace (text search replacement : String) : String :=
  if search.data = [] then text
  else ⟨replaceFrom search.data replacement.data 0 text.data⟩

/-- The text `s` contains an occurrence of `marker` (as a contiguous run of
characters). -/
def Contains (s marker : String) : Prop :=
  marker.data <:+: s.data

instance (s marker : String) : Decidable (Contains s marker) := by
  unfold Contains
  infer_instance

/-! ## Data model -/

/-- Fields of `gd::ParameterMetadata`. -/
structure ParameterMetadata where
  type : String
  supplementaryInformation : String
  optional : Bool
  description : String
  longDescription : String
  codeOnly : Bool
  defaultValue : String
  name : String
  deriving DecidableEq, Repr

/-- Fields of `gd::InstructionMetadata` that the source file initialises or
updates. `manipulatedType` is the type tag recorded by `SetManipulatedType`. -/
structure InstructionMetadata where
  fullname : String
  description : String
  helpPath : String
  sentence : String
  group : String
  iconFilename : String
  smallIconFilename : String
  canHaveSubInstructions : Bool
  extensionNamespace : String
  hidden : Bool
  usageComplexity : Int
  isPrivate : Bool
  isObjectInstruction : Bool
  isBehaviorInstruction : Bool
  parameters : List ParameterMetadata
  manipulatedType : String
  deriving DecidableEq, Repr

/-! ## Constructors -/

/-- `ParameterMetadata::ParameterMetadata()`: `optional(false), codeOnly(false)`,
every string member default-constructed (empty). -/
def ParameterMetadata.ctor : ParameterMetadata :=
  { type := ""
    supplementaryInformation := ""
    optional := false
    description := ""
    longDescription := ""
    codeOnly := false
    defaultValue := ""
    name := "" }

/-- `InstructionMetadata::InstructionMetadata()`: the members named in the
initialiser list get the listed values, the other strings and the parameter
vector are default-constructed (empty). -/
def InstructionMetadata.ctor : InstructionMetadata :=
  { fullname := ""
    description := ""
    helpPath := ""
    sentence := "Unknown or unsupported instruction"
    group := ""
    iconFilename := ""
    smallIconFilename := ""
    canHaveSubInstructions := false
    extensionNamespace := ""
    hidden := true
    usageComplexity := 5
    isPrivate := false
    isObjectInstruction := false
    isBehaviorInstruction := false
    parameters := []
    manipulatedType := "" }

/-- `InstructionMetadata::InstructionMetadata(extensionNamespace_, name_, fullname_,
description_, sentence_, group_, icon_, smallIcon_)`. The argument `name_` is not
stored by the initialiser list. -/
def InstructionMetadata.ctorFull (extensionNamespace_ name_ fullname_ description_
    sentence_ group_ icon_ smallIcon_ : String) : InstructionMetadata :=
  let _unused := name_
  { fullname := fullname_
    description := description_
    helpPath := ""
    sentence := sentence_
    group := group_
    iconFilename := icon_
    smallIconFilename := smallIcon_
    canHaveSubInstructions := false
    extensionNamespace := extensionNamespace_
    hidden := false
    usageComplexity := 5
    isPrivate := false
    isObjectInstruction := false
    isBehaviorInstruction := false
    parameters := []
    manipulatedType := "" }

/-! ## Operations of `InstructionMetadata` -/

section Operations

variable (IsObject IsBehavior : String → Bool) (translate : String → String)

/-- Modelled from the spec: `SetManipulatedType` (declared in
`InstructionMetadata.h`, not part of the source at hand): "record the manipulated
value's type tag on the instruction". -/
def InstructionMetadata.SetManipulatedType (self : InstructionMetadata) (type : String) :
    InstructionMetadata :=
  { self with manipulatedType := type }

/-- `InstructionMetadata::AddParameter(type, description, optionalObjectType,
parameterIsOptional)`. -/
def InstructionMetadata.AddParameter (self : InstructionMetadata)
    (type description optionalObjectType : String) (parameterIsOptional : Bool) :
    InstructionMetadata :=
  let info := ParameterMetadata.ctor
  let info := { info with type := type }
  let info := { info with description := description }
  let info := { info with codeOnly := false }
  let info := { info with optional := parameterIsOptional }
  let supplementaryInformation :=
    if IsObject type || IsBehavior type then
      (if optionalObjectType.isEmpty then "" else self.extensionNamespace ++ optionalObjectType)
    else optionalObjectType
  let info := { info with supplementaryInformation := supplementaryInformation }
  { self with parameters := self.parameters ++ [info] }

/-- `InstructionMetadata::AddCodeOnlyParameter(type, supplementaryInformation)`. -/
def InstructionMetadata.AddCodeOnlyParameter (self : InstructionMetadata)
    (type supplementaryInformation : String) : InstructionMetadata :=
  let info := ParameterMetadata.ctor
  let info := { info with type := type }
  let info := { info with codeOnly := true }
  let info := { info with supplementaryInformation := supplementaryInformation }
  { self with parameters := self.parameters ++ [info] }

/-- Text of the positional placeholder built by the templating operations:
`"_PARAM" + gd::String::From(index) + "_"`. -/
def paramToken (index : Nat) : String :=
  "_PARAM" ++ From index ++ "_"

/-- `InstructionMetadata::UseStandardOperatorParameters(type)`. The two
`AddParameter` calls of the source pass two arguments only. The other two are the
default arguments of the declaration in `InstructionMetadata.h`, which is not part
of the source at hand: they are taken to be an empty `optionalObjectType` and
`parameterIsOptional = false`, a plain required parameter. -/
def InstructionMetadata.UseStandardOperatorParameters (self : InstructionMetadata)
    (type : String) : InstructionMetadata :=
  let self := self.SetManipulatedType type
  let self := self.AddParameter IsObject IsBehavior "operator"
    (translate "Modification's sign") "" false
  let self := self.AddParameter IsObject IsBehavior
    (if type = "number" then "expression" else type) (translate "Value") "" false
  let operatorParamIndex := sizeSub self.parameters.length 2
  let valueParamIndex := sizeSub self.parameters.length 1
  if self.isObjectInstruction || self.isBehaviorInstruction then
    let templateSentence := translate "Change <subject> of _PARAM0_: <operator> <value>"
    let sentence :=
      FindAndReplace
        (FindAndReplace
          (FindAndReplace templateSentence "<subject>" self.sentence)
          "<operator>" (paramToken operatorParamIndex))
        "<value>" (paramToken valueParamIndex)
    { self with sentence := sentence }
  else
    let templateSentence := translate "Change <subject>: <operator> <value>"
    let sentence :=
      FindAndReplace
        (FindAndReplace
          (FindAndReplace templateSentence "<subject>" self.sentence)
          "<operator>" (paramToken operatorParamIndex))
        "<value>" (paramToken valueParamIndex)
    { self with sentence := sentence }

/-- `InstructionMetadata::UseStandardRelationalOperatorParameters(type)`, with
the same default arguments in its two `AddParameter` calls. -/
def InstructionMetadata.UseStandardRelationalOperatorParameters (self : InstructionMetadata)
    (type : String) : InstructionMetadata :=
  let self := self.SetManipulatedType type
  let self := self.AddParameter IsObject IsBehavior "relationalOperator"
    (translate "Sign of the test") "" false
  let self := self.AddParameter IsObject IsBehavior
    (if type = "number" then "expression" else type) (translate "Value to compare") "" false
  let operatorParamIndex := sizeSub self.parameters.length 2
  let valueParamIndex := sizeSub self.parameters.length 1
  if self.isObjectInstruction || self.isBehaviorInstruction then
    let templateSentence := translate "<subject> of _PARAM0_ <operator> <value>"
    let sentence :=
      FindAndReplace
        (FindAndReplace
          (FindAndReplace templateSentence "<subject>" self.sentence)
          "<operator>" (paramToken operatorParamIndex))
        "<value>" (paramToken valueParamIndex)
    { self with sentence := sentence }
  else
    let templateSentence := translate "<subject> <operator> <value>"
    let sentence :=
      FindAndReplace
        (FindAndReplace
          (FindAndReplace templateSentence "<subject>" self.sentence)
          "<operator>" (paramToken operatorParamIndex))
        "<value>" (paramToken valueParamIndex)
    { self with sentence := sentence }

end Operations

/-! ## Serialization of `ParameterMetadata` -/

/-- `ParameterMetadata::SerializeTo(element)`: the eight `SetAttribute` calls, in
the order of the source. -/
def ParameterMetadata.SerializeTo (self : ParameterMetadata) (element : SerializerElement) :
    SerializerElement :=
  let element := element.SetAttribute "type" (.stringValue self.type)
  let element := element.SetAttribute "supplementaryInformation"
    (.stringValue self.supplementaryInformation)
  let element := element.SetAttribute "optional" (.boolValue self.optional)
  let element := element.SetAttribute "description" (.stringValue self.description)
  let element := element.SetAttribute "longDescription" (.stringValue self.longDescription)
  let element := element.SetAttribute "codeOnly" (.boolValue self.codeOnly)
  let element := element.SetAttribute "defaultValue" (.stringValue self.defaultValue)
  let element := element.SetAttribute "name" (.stringValue self.name)
  element

/-- `ParameterMetadata::UnserializeFrom(element)`: the eight assignments of the
source. The getters are called with the name only; their default argument is the
per-type default of the spec, the empty string and `false`. -/
def ParameterMetadata.UnserializeFrom (self : ParameterMetadata) (element : SerializerElement) :
    ParameterMetadata :=
  let self := { self with type := element.GetStringAttribute "type" "" }
  let self := { self with
    supplementaryInformation := element.GetStringAttribute "supplementaryInformation" "" }
  let self := { self with optional := element.GetBoolAttribute "optional" false }
  let self := { self with description := element.GetStringAttribute "description" "" }
  let self := { self with longDescription := element.GetStringAttribute "longDescription" "" }
  let self := { self with codeOnly := element.GetBoolAttribute "codeOnly" false }
  let self := { self with defaultValue := element.GetStringAttribute "defaultValue" "" }
  let self := { self with name := element.GetStringAttribute "name" "" }
  self

/-- The attribute names passed to `SetAttribute` by `SerializeTo` and to the
getters by `UnserializeFrom`, in the order of the source. -/
def serializedAttributeNames : List String :=
  ["type", "supplementaryInformation", "optional", "description", "longDescription",
   "codeOnly", "defaultValue", "name"]

/-- The attribute tree without any attribute. -/
def SerializerElement.empty : SerializerElement :=
  { attributes := [] }

/-! ## Sequences of builder calls and the indices of the templating operations -/

/-- One call of a parameter-adding or templating operation, with its arguments. -/
inductive BuilderCall where
  | AddParameter (type description optionalObjectType : String) (parameterIsOptional : Bool)
  | AddCodeOnlyParameter (type supplementaryInformation : String)
  | UseStandardOperatorParameters (type : String)
  | UseStandardRelationalOperatorParameters (type : String)
  deriving DecidableEq, Repr

section Calls

variable (IsObject IsBehavior : String → Bool) (translate : String → String)

/-- The instruction after one builder call. -/
def InstructionMetadata.applyCall (self : InstructionMetadata) :
    BuilderCall → InstructionMetadata
  | .AddParameter type description optionalObjectType parameterIsOptional =>
    self.AddParameter IsObject IsBehavior type description optionalObjectType
      parameterIsOptional
  | .AddCodeOnlyParameter type supplementaryInformation =>
    self.AddCodeOnlyParameter type supplementaryInformation
  | .UseStandardOperatorParameters type =>
    self.UseStandardOperatorParameters IsObject IsBehavior translate type
  | .UseStandardRelationalOperatorParameters type =>
    self.UseStandardRelationalOperatorParameters IsObject IsBehavior translate type

/-- The instruction after a finite sequence of builder calls, first call first. -/
def InstructionMetadata.applyCalls (self : InstructionMetadata) :
    List BuilderCall → InstructionMetadata
  | [] => self
  | call :: calls =>
    InstructionMetadata.applyCalls (self.applyCall IsObject IsBehavior translate call) calls

/-- The first statements of `UseStandardOperatorParameters`, up to the two index
computations: the pair `(operatorParamIndex, valueParamIndex)` as the source
computes it, `parameters.size() - 2` and `parameters.size() - 1` after the two
`AddParameter` calls. -/
def InstructionMetadata.UseStandardOperatorParameters_indices (self : InstructionMetadata)
    (type : String) : Nat × Nat :=
  let self := self.SetManipulatedType type
  let self := self.AddParameter IsObject IsBehavior "operator"
    (translate "Modification's sign") "" false
  let self := self.AddParameter IsObject IsBehavior
    (if type = "number" then "expression" else type) (translate "Value") "" false
  let operatorParamIndex := sizeSub self.parameters.length 2
  let valueParamIndex := sizeSub self.parameters.length 1
  (operatorParamIndex, valueParamIndex)

/-- The first statements of `UseStandardRelationalOperatorParameters`, up to the
two index computations. -/
def InstructionMetadata.UseStandardRelationalOperatorParameters_indices
    (self : InstructionMetadata) (type : String) : Nat × Nat :=
  let self := self.SetManipulatedType type
  let self := self.AddParameter IsObject IsBehavior "relationalOperator"
    (translate "Sign of the test") "" false
  let self := self.AddParameter IsObject IsBehavior
    (if type = "number" then "expression" else type) (translate "Value to compare") "" false
  let operatorParamIndex := sizeSub self.parameters.length 2
  let valueParamIndex := sizeSub self.parameters.length 1
  (operatorParamIndex, valueParamIndex)

end Calls

/-! ## Sample instructions -/

/-- An object instruction as a registration step builds it: the full constructor
with the sentence `"the X"`, the object flag set, and the object itself as
parameter 0. -/
def sampleObjectInstruction : InstructionMetadata :=
  let base := (InstructionMetadata.ctorFull "Ext::" "Act" "Action" "An action" "the X" ""
    "" "").AddParameter (fun t => t == "object") (fun t => t == "behavior") "object"
    "Object" "" false
  { base with isObjectInstruction := true }

/-- A free instruction (neither object nor behavior) with the sentence
`"the score"` and no parameter. -/
def sampleFreeInstruction : InstructionMetadata :=
  InstructionMetadata.ctorFull "Ext::" "Act" "Action" "An action" "the score" "" "" ""

/-! ## Lemmas on the attribute tree -/

theorem lookup_filter_ne (name other : String) (h : other ≠ name) :
    ∀ l : List (String × SerializerValue),
      (l.filter (fun kv => kv.1 != name)).lookup other = l.lookup other
  | [] => rfl
  | (k, v) :: l => by
    by_cases hk : k = name
    · have h1 : (other == k) = false := by simpa [hk] using h
      have h2 : (k != name) = false := by simpa using hk
      simp only [List.filter, h2, List.lookup, h1]
      exact lookup_filter_ne name other h l
    · have h2 : (k != name) = true := by simpa using hk
      simp only [List.filter, h2, List.lookup]
      rw [lookup_filter_ne name other h l]

theorem lookup_SetAttribute_same (element : SerializerElement) (name : String)
    (value : SerializerValue) :
    (element.SetAttribute name value).attributes.lookup name = some value := by
  simp [SerializerElement.SetAttribute, List.lookup]

theorem lookup_SetAttribute_other (element : SerializerElement) (name other : String)
    (value : SerializerValue) (h : other ≠ name) :
    (element.SetAttribute name value).attributes.lookup other
      = element.attributes.lookup other := by
  have h1 : (other == name) = false := by simpa using h
  simp only [SerializerElement.SetAttribute, List.lookup, h1]
  exact lookup_filter_ne name other h element.attributes

theorem GetStringAttribute_SetAttribute_same (element : SerializerElement) (name s d : String) :
    (element.SetAttribute name (.stringValue s)).GetStringAttribute name d = s := by
  simp [SerializerElement.GetStringAttribute, lookup_SetAttribute_same]

theorem GetBoolAttribute_SetAttribute_same (element : SerializerElement) (name : String)
    (b d : Bool) :
    (element.SetAttribute name (.boolValue b)).GetBoolAttribute name d = b := by
  simp [SerializerElement.GetBoolAttribute, lookup_SetAttribute_same]

theorem GetStringAttribute_SetAttribute_other (element : SerializerElement)
    (name other d : String) (value : SerializerValue) (h : other ≠ name) :
    (element.SetAttribute name value).GetStringAttribute other d
      = element.GetStringAttribute other d := by
  simp [SerializerElement.GetStringAttribute, lookup_SetAttribute_other _ _ _ _ h]

theorem GetBoolAttribute_SetAttribute_other (element : SerializerElement)
    (name other : String) (d : Bool) (value : SerializerValue) (h : other ≠ name) :
    (element.SetAttribute name value).GetBoolAttribute other d
      = element.GetBoolAttribute other d := by
  simp [SerializerElement.GetBoolAttribute, lookup_SetAttribute_other _ _ _ _ h]

/-- Result of `q.UnserializeFrom(e)` after `p.SerializeTo(e)`: the object `p`. -/
theorem UnserializeFrom_SerializeTo_eq (p q : ParameterMetadata) (e : SerializerElement) :
    q.UnserializeFrom (p.SerializeTo e) = p := by
  cases p
  simp only [ParameterMetadata.UnserializeFrom, ParameterMetadata.SerializeTo]
  simp only [GetStringAttribute_SetAttribute_same, GetBoolAttribute_SetAttribute_same,
    GetStringAttribute_SetAttribute_other _ _ _ _ _ (by decide : "type" ≠ "name"),
    GetStringAttribute_SetAttribute_other _ _ _ _ _ (by decide : "type" ≠ "defaultValue"),
    GetStringAttribute_SetAttribute_other _ _ _ _ _ (by decide : "type" ≠ "codeOnly"),
    GetStringAttribute_SetAttribute_other _ _ _ _ _ (by decide : "type" ≠ "longDescription"),
    GetStringAttribute_SetAttribute_other _ _ _ _ _ (by decide : "type" ≠ "description"),
    GetStringAttribute_SetAttribute_other _ _ _ _ _ (by decide : "type" ≠ "optional"),
    GetStringAttribute_SetAttribute_other _ _ _ _ _
      (by decide : "type" ≠ "supplementaryInformation"),
    GetStringAttribute_SetAttribute_other _ _ _ _ _
      (by decide : "supplementaryInformation" ≠ "name"),
    GetStringAttribute_SetAttribute_other _ _ _ _ _
      (by decide : "supplementaryInformation" ≠ "defaultValue"),
    GetStringAttribute_SetAttribute_other _ _ _ _ _
      (by decide : "supplementaryInformation" ≠ "codeOnly"),
    GetStringAttribute_SetAttribute_other _ _ _ _ _
      (by decide : "supplementaryInformation" ≠ "longDescription"),
    GetStringAttribute_SetAttribute_other _ _ _ _ _
      (by decide : "supplementaryInformation" ≠ "description"),
    GetStringAttribute_SetAttribute_other _ _ _ _ _
      (by decide : "supplementaryInformation" ≠ "optional"),
    GetBoolAttribute_SetAttribute_other _ _ _ _ _ (by decide : "optional" ≠ "name"),
    GetBoolAttribute_SetAttribute_other _ _ _ _ _ (by decide : "optional" ≠ "defaultValue"),
    GetBoolAttribute_SetAttribute_other _ _ _ _ _ (by decide : "optional" ≠ "codeOnly"),
    GetBoolAttribute_SetAttribute_other _ _ _ _ _ (by decide : "optional" ≠ "longDescription"),
    GetBoolAttribute_SetAttribute_other _ _ _ _ _ (by decide : "optional" ≠ "description"),
    GetStringAttribute_SetAttribute_other _ _ _ _ _ (by decide : "description" ≠ "name"),
    GetStringAttribute_SetAttribute_other _ _ _ _ _
      (by decide : "description" ≠ "defaultValue"),
    GetStringAttribute_SetAttribute_other _ _ _ _ _ (by decide : "description" ≠ "codeOnly"),
    GetStringAttribute_SetAttribute_other _ _ _ _ _
      (by decide : "description" ≠ "longDescription"),
    GetStringAttribute_SetAttribute_other _ _ _ _ _ (by decide : "longDescription" ≠ "name"),
    GetStringAttribute_SetAttribute_other _ _ _ _ _
      (by decide : "longDescription" ≠ "defaultValue"),
    GetStringAttribute_SetAttribute_other _ _ _ _ _
      (by decide : "longDescription" ≠ "codeOnly"),
    GetBoolAttribute_SetAttribute_other _ _ _ _ _ (by decide : "codeOnly" ≠ "name"),
    GetBoolAttribute_SetAttribute_other _ _ _ _ _ (by decide : "codeOnly" ≠ "defaultValue"),
    GetStringAttribute_SetAttribute_other _ _ _ _ _ (by decide : "defaultValue" ≠ "name")]

/-- Value found under any name after `SerializeTo`: the field of that name for the
eight written names, the earlier content of the tree for every other name. -/
theorem lookup_SerializeTo (p : ParameterMetadata) (e : SerializerElement) (key : String) :
    (p.SerializeTo e).attributes.lookup key =
      if key = "name" then some (.stringValue p.name)
      else if key = "defaultValue" then some (.stringValue p.defaultValue)
      else if key = "codeOnly" then some (.boolValue p.codeOnly)
      else if key = "longDescription" then some (.stringValue p.longDescription)
      else if key = "description" then some (.stringValue p.description)
      else if key = "optional" then some (.boolValue p.optional)
      else if key = "supplementaryInformation" then
        some (.stringValue p.supplementaryInformation)
      else if key = "type" then some (.stringValue p.type)
      else e.attributes.lookup key := by
  simp only [ParameterMetadata.SerializeTo]
  split_ifs with h1 h2 h3 h4 h5 h6 h7 h8
  · rw [h1, lookup_SetAttribute_same]
  · rw [lookup_SetAttribute_other _ _ _ _ h1, h2, lookup_SetAttribute_same]
  · rw [lookup_SetAttribute_other _ _ _ _ h1, lookup_SetAttribute_other _ _ _ _ h2, h3,
      lookup_SetAttribute_same]
  · rw [lookup_SetAttribute_other _ _ _ _ h1, lookup_SetAttribute_other _ _ _ _ h2,
      lookup_SetAttribute_other _ _ _ _ h3, h4, lookup_SetAttribute_same]
  · rw [lookup_SetAttribute_other _ _ _ _ h1, lookup_SetAttribute_other _ _ _ _ h2,
      lookup_SetAttribute_other _ _ _ _ h3, lookup_SetAttribute_other _ _ _ _ h4, h5,
      lookup_SetAttribute_same]
  · rw [lookup_SetAttribute_other _ _ _ _ h1, lookup_SetAttribute_other _ _ _ _ h2,
      lookup_SetAttribute_other _ _ _ _ h3, lookup_SetAttribute_other _ _ _ _ h4,
      lookup_SetAttribute_other _ _ _ _ h5, h6, lookup_SetAttribute_same]
  · rw [lookup_SetAttribute_other _ _ _ _ h1, lookup_SetAttribute_other _ _ _ _ h2,
      lookup_SetAttribute_other _ _ _ _ h3, lookup_SetAttribute_other _ _ _ _ h4,
      lookup_SetAttribute_other _ _ _ _ h5, lookup_SetAttribute_other _ _ _ _ h6, h7,
      lookup_SetAttribute_same]
  · rw [lookup_SetAttribute_other _ _ _ _ h1, lookup_SetAttribute_other _ _ _ _ h2,
      lookup_SetAttribute_other _ _ _ _ h3, lookup_SetAttribute_other _ _ _ _ h4,
      lookup_SetAttribute_other _ _ _ _ h5, lookup_SetAttribute_other _ _ _ _ h6,
      lookup_SetAttribute_other _ _ _ _ h7, h8, lookup_SetAttribute_same]
  · rw [lookup_SetAttribute_other _ _ _ _ h1, lookup_SetAttribute_other _ _ _ _ h2,
      lookup_SetAttribute_other _ _ _ _ h3, lookup_SetAttribute_other _ _ _ _ h4,
      lookup_SetAttribute_other _ _ _ _ h5, lookup_SetAttribute_other _ _ _ _ h6,
      lookup_SetAttribute_other _ _ _ _ h7, lookup_SetAttribute_other _ _ _ _ h8]

/-- The attributes of an empty tree after `SerializeTo`: the eight pairs, the last
written first. -/
theorem SerializeTo_empty_attributes (p : ParameterMetadata) :
    (p.SerializeTo SerializerElement.empty).attributes =
      [("name", .stringValue p.name), ("defaultValue", .stringValue p.defaultValue),
       ("codeOnly", .boolValue p.codeOnly),
       ("longDescription", .stringValue p.longDescription),
       ("description", .stringValue p.description), ("optional", .boolValue p.optional),
       ("supplementaryInformation", .stringValue p.supplementaryInformation),
       ("type", .stringValue p.type)] := by
  simp +decide [ParameterMetadata.SerializeTo, SerializerElement.SetAttribute,
    SerializerElement.empty, List.filter]

/-- `UnserializeFrom` consults the tree only through the eight names. -/
theorem UnserializeFrom_congr (q : ParameterMetadata) (e1 e2 : SerializerElement)
    (h : ∀ key ∈ serializedAttributeNames, e1.attributes.lookup key = e2.attributes.lookup key) :
    q.UnserializeFrom e1 = q.UnserializeFrom e2 := by
  simp only [ParameterMetadata.UnserializeFrom, SerializerElement.GetStringAttribute,
    SerializerElement.GetBoolAttribute]
  rw [h "type" (by decide), h "supplementaryInformation" (by decide),
    h "optional" (by decide), h "description" (by decide), h "longDescription" (by decide),
    h "codeOnly" (by decide), h "defaultValue" (by decide), h "name" (by decide)]

/-! ## Lemmas on the scanning loop of `FindAndReplace` -/

section Replace

variable (sr rp : List Char)

theorem replaceFrom_nil (k : Nat) : replaceFrom sr rp k [] = [] := by
  cases k <;> rfl

theorem replaceFrom_zero_cons (c : Char) (rest : List Char) :
    replaceFrom sr rp 0 (c :: rest) =
      if sr.isPrefixOf (c :: rest) then rp ++ replaceFrom sr rp (sr.length - 1) rest
      else c :: replaceFrom sr rp 0 rest := by
  rw [replaceFrom]

/-- Skipping `k` characters is dropping them. -/
theorem replaceFrom_skip :
    ∀ (l : List Char) (k : Nat), replaceFrom sr rp k l = replaceFrom sr rp 0 (l.drop k)
  | [], k => by simp [replaceFrom_nil]
  | _ :: _, 0 => rfl
  | _ :: rest, k + 1 => by
    rw [replaceFrom, List.drop_succ_cons]
    exact replaceFrom_skip rest k

theorem isPrefixOf_cons_of_head_ne {x c : Char} (hx : sr.head? = some x) (hne : x ≠ c)
    (l : List Char) : sr.isPrefixOf (c :: l) = false := by
  cases sr with
  | nil => simp at hx
  | cons h t =>
    simp only [List.head?_cons, Option.some.injEq] at hx
    subst hx
    simp [List.isPrefixOf, hne]

/-- An occurrence at the current position is replaced and the scan goes on behind
it. -/
theorem replaceFrom_match (hsr : sr ≠ []) (b : List Char) :
    replaceFrom sr rp 0 (sr ++ b) = rp ++ replaceFrom sr rp 0 b := by
  cases sr with
  | nil => exact absurd rfl hsr
  | cons h t =>
    have hp : (h :: t).isPrefixOf (h :: (t ++ b)) = true := by
      rw [List.isPrefixOf_iff_prefix]
      exact List.prefix_append (h :: t) b
    rw [List.cons_append, replaceFrom_zero_cons, if_pos hp, replaceFrom_skip]
    simp

/-- Characters that differ from the first character of `search` are copied. -/
theorem replaceFrom_append_of_head_not_mem {x : Char} (hx : sr.head? = some x) :
    ∀ (a b : List Char), x ∉ a →
      replaceFrom sr rp 0 (a ++ b) = a ++ replaceFrom sr rp 0 b
  | [], _, _ => rfl
  | c :: a, b, ha => by
    have hne : x ≠ c := fun h => ha (h ▸ List.mem_cons_self _ _)
    have hxa : x ∉ a := fun h => ha (List.mem_cons_of_mem _ h)
    rw [List.cons_append, replaceFrom_zero_cons,
      isPrefixOf_cons_of_head_ne sr hx hne, replaceFrom_append_of_head_not_mem hx a b hxa]
    simp

/-- The scan splits at a character that does not occur in `search`. -/
theorem replaceFrom_append_sep {c : Char} (hc : c ∉ sr) (hsr : sr ≠ []) (b : List Char) :
    ∀ (a : List Char) (k : Nat), k ≤ a.length →
      replaceFrom sr rp k (a ++ c :: b) = replaceFrom sr rp k a ++ c :: replaceFrom sr rp 0 b
  | [], k, hk => by
    have hk0 : k = 0 := by simpa using hk
    subst hk0
    obtain ⟨x, hx⟩ : ∃ x, sr.head? = some x := by
      cases sr with
      | nil => exact absurd rfl hsr
      | cons h t => exact ⟨h, rfl⟩
    have hne : x ≠ c := fun h => hc (h ▸ List.mem_of_mem_head? hx)
    simp [replaceFrom_zero_cons, isPrefixOf_cons_of_head_ne sr hx hne, replaceFrom_nil]
  | y :: a, k + 1, hk => by
    have hk2 : k ≤ a.length := by simpa using hk
    rw [List.cons_append, replaceFrom, replaceFrom]
    exact replaceFrom_append_sep hc hsr b a k hk2
  | y :: a, 0, _ => by
    rw [List.cons_append, replaceFrom_zero_cons, replaceFrom_zero_cons]
    by_cases hm : sr.isPrefixOf (y :: (a ++ c :: b)) = true
    · have hpre : sr <+: (y :: a) ++ c :: b := by
        exact List.isPrefixOf_iff_prefix.mp hm
      have hlen : sr.length ≤ (y :: a).length := by
        by_contra hlt
        have h1 : (y :: a) ++ [c] <+: (y :: a) ++ c :: b :=
          (List.prefix_append_right_inj (y :: a)).mpr (by simp)
        have h2 : (y :: a) ++ [c] <+: sr :=
          List.prefix_of_prefix_length_le h1 hpre (by simp at hlt ⊢; omega)
        exact hc (h2.subset (by simp))
      have hpre2 : sr <+: y :: a :=
        List.prefix_of_prefix_length_le hpre (List.prefix_append (y :: a) (c :: b)) hlen
      have hm2 : sr.isPrefixOf (y :: a) = true := List.isPrefixOf_iff_prefix.mpr hpre2
      have hk : sr.length - 1 ≤ a.length := by simp at hlen; omega
      rw [if_pos hm, if_pos hm2, replaceFrom_append_sep hc hsr b a _ hk, List.append_assoc]
    · have hm2 : ¬ sr.isPrefixOf (y :: a) = true := by
        intro h
        apply hm
        rw [List.isPrefixOf_iff_prefix] at h ⊢
        exact h.trans (List.prefix_append (y :: a) (c :: b))
      rw [if_neg hm, if_neg hm2, replaceFrom_append_sep hc hsr b a 0 (Nat.zero_le _)]
      simp

/-- A text without any occurrence of `search` is returned unchanged. -/
theorem replaceFrom_of_no_occurrence :
    ∀ (l : List Char), ¬ sr <:+: l → replaceFrom sr rp 0 l = l
  | [], _ => rfl
  | c :: l, h => by
    have hm : ¬ sr.isPrefixOf (c :: l) = true := by
      intro hp
      exact h (List.isPrefixOf_iff_prefix.mp hp).isInfix
    have hl : ¬ sr <:+: l := fun hi => h (List.infix_cons hi)
    rw [replaceFrom_zero_cons, if_neg hm, replaceFrom_of_no_occurrence l hl]

/-- An occurrence of `sr` in `r ++ t` lies within `t` when the first character of
`sr` does not occur in `r`. -/
theorem infix_of_infix_append_left {x : Char} (hx : sr.head? = some x) (t : List Char) :
    ∀ (r : List Char), x ∉ r → sr <:+: r ++ t → sr <:+: t
  | [], _, h => h
  | c :: r, hr, h => by
    have hne : x ≠ c := fun e => hr (e ▸ List.mem_cons_self _ _)
    have hxr : x ∉ r := fun e => hr (List.mem_cons_of_mem _ e)
    rw [List.cons_append, List.infix_cons_iff] at h
    rcases h with h | h
    · have hf := isPrefixOf_cons_of_head_ne sr hx hne (r ++ t)
      rw [List.isPrefixOf_iff_prefix.mpr h] at hf
      exact absurd hf (by simp)
    · exact infix_of_infix_append_left hx t r hxr h

/-- An occurrence of `sr` in `t ++ r` lies within `t` when the last character of
`sr` does not occur in `r`. -/
theorem infix_of_infix_append_right {z : Char} (hz : sr.getLast? = some z) (t r : List Char)
    (hr : z ∉ r) (h : sr <:+: t ++ r) : sr <:+: t := by
  rw [← List.reverse_infix, List.reverse_append] at h
  rw [← List.reverse_infix]
  exact infix_of_infix_append_left sr.reverse (by simpa using hz) t.reverse r.reverse
    (by simpa using hr) h

/-- A run of characters foreign to the replacement that starts the rewritten text
also starts the original text. -/
theorem prefix_of_prefix_replaceFrom (hrp : rp ≠ []) :
    ∀ (xs t : List Char), (∀ c ∈ t, c ∉ rp) → t <+: replaceFrom sr rp 0 xs → t <+: xs
  | _, [], _, _ => List.nil_prefix
  | [], c :: t, _, h => by
    rw [replaceFrom_nil] at h
    exact h
  | y :: ys, c :: t, hd, h => by
    rw [replaceFrom_zero_cons] at h
    by_cases hm : sr.isPrefixOf (y :: ys) = true
    · rw [if_pos hm] at h
      cases rp with
      | nil => exact absurd rfl hrp
      | cons r rp1 =>
        rw [List.cons_append, List.cons_prefix_cons] at h
        exact absurd (h.1 ▸ List.mem_cons_self _ _) (hd c (List.mem_cons_self _ _))
    · rw [if_neg hm, List.cons_prefix_cons] at h
      rw [List.cons_prefix_cons]
      exact ⟨h.1, prefix_of_prefix_replaceFrom hrp ys t
        (fun c1 hc1 => hd c1 (List.mem_cons_of_mem _ hc1)) h.2⟩

/-- Replacing `sr` by `rp` creates no occurrence of a marker `m` whose characters
are foreign to `rp`: an occurrence of `m` in the rewritten text was in the
original text. -/
theorem infix_of_infix_replaceFrom (m : List Char) (hrp : rp ≠ []) (hm : m ≠ [])
    (hd : ∀ c ∈ m, c ∉ rp) :
    ∀ (s : List Char) (k : Nat), m <:+: replaceFrom sr rp k s → m <:+: s
  | [], k, h => by
    rw [replaceFrom_nil] at h
    exact h
  | y :: ys, k + 1, h => by
    rw [replaceFrom] at h
    exact List.infix_cons (infix_of_infix_replaceFrom m hrp hm hd ys k h)
  | y :: ys, 0, h => by
    obtain ⟨x, m1, rfl⟩ : ∃ x m1, m = x :: m1 := by
      cases m with
      | nil => exact absurd rfl hm
      | cons x m1 => exact ⟨x, m1, rfl⟩
    rw [replaceFrom_zero_cons] at h
    by_cases hp : sr.isPrefixOf (y :: ys) = true
    · rw [if_pos hp] at h
      have h2 := infix_of_infix_append_left (x :: m1) rfl _ rp
        (hd x (List.mem_cons_self _ _)) h
      exact List.infix_cons (infix_of_infix_replaceFrom (x :: m1) hrp hm hd ys _ h2)
    · rw [if_neg hp, List.infix_cons_iff] at h
      rcases h with h | h
      · rw [List.cons_prefix_cons] at h
        have h3 := prefix_of_prefix_replaceFrom sr rp hrp ys m1
          (fun c1 hc1 => hd c1 (List.mem_cons_of_mem _ hc1)) h.2
        exact (List.cons_prefix_cons.mpr ⟨h.1, h3⟩).isInfix
      · exact List.infix_cons (infix_of_infix_replaceFrom (x :: m1) hrp hm hd ys 0 h)

/-- After the replacement no occurrence of `sr` is left, when the characters of
`sr` are foreign to the (non-empty) replacement. -/
theorem not_infix_replaceFrom (hrp : rp ≠ []) (hsr : sr ≠ []) (hd : ∀ c ∈ sr, c ∉ rp) :
    ∀ (s : List Char) (k : Nat), ¬ sr <:+: replaceFrom sr rp k s
  | [], k, h => by
    rw [replaceFrom_nil] at h
    exact hsr (List.eq_nil_of_infix_nil h)
  | y :: ys, k + 1, h => by
    rw [replaceFrom] at h
    exact not_infix_replaceFrom hrp hsr hd ys k h
  | y :: ys, 0, h => by
    obtain ⟨x, hx⟩ : ∃ x, sr.head? = some x := by
      cases sr with
      | nil => exact absurd rfl hsr
      | cons a t => exact ⟨a, rfl⟩
    rw [replaceFrom_zero_cons] at h
    by_cases hp : sr.isPrefixOf (y :: ys) = true
    · rw [if_pos hp] at h
      exact not_infix_replaceFrom hrp hsr hd ys _
        (infix_of_infix_append_left sr hx _ rp (hd x (List.mem_of_mem_head? hx)) h)
    · rw [if_neg hp, List.infix_cons_iff] at h
      rcases h with h | h
      · apply hp
        rw [List.isPrefixOf_iff_prefix]
        obtain ⟨t, rfl⟩ : ∃ t, sr = x :: t := List.head?_eq_some_iff.mp hx
        rw [List.cons_prefix_cons] at h ⊢
        exact ⟨h.1, prefix_of_prefix_replaceFrom (x :: t) rp hrp ys t
          (fun c1 hc1 => hd c1 (List.mem_cons_of_mem _ hc1)) h.2⟩
      · exact not_infix_replaceFrom hrp hsr hd ys 0 h

/-- A text with one occurrence of `sr`, behind a part free of the first character
of `sr` and before a part free of `sr`: the occurrence is replaced. -/
theorem replaceFrom_single {x : Char} (hx : sr.head? = some x) (pre post : List Char)
    (hpre : x ∉ pre) (hpost : ¬ sr <:+: post) :
    replaceFrom sr rp 0 (pre ++ (sr ++ post)) = pre ++ (rp ++ post) := by
  have hsr : sr ≠ [] := by
    intro h
    rw [h] at hx
    exact absurd hx (by simp)
  rw [replaceFrom_append_of_head_not_mem sr rp hx pre _ hpre, replaceFrom_match sr rp hsr,
    replaceFrom_of_no_occurrence sr rp post hpost]

end Replace

/-! ## Lemmas on the positional placeholders and on `size_t` -/

theorem sizeSub_of_le (a b : Nat) (ha : a < 2 ^ SIZE_WIDTH) (hb : b ≤ a) :
    sizeSub a b = a - b := by
  unfold sizeSub
  have hM : 0 < 2 ^ SIZE_WIDTH := Nat.pos_pow_of_pos _ (by decide)
  have hb2 : b < 2 ^ SIZE_WIDTH := Nat.lt_of_le_of_lt hb ha
  rw [Nat.mod_eq_of_lt ha, Nat.mod_eq_of_lt hb2]
  have h1 : a + (2 ^ SIZE_WIDTH - b) = (a - b) + 2 ^ SIZE_WIDTH := by omega
  rw [h1, Nat.add_mod_right, Nat.mod_eq_of_lt (by omega)]

theorem digitChar_mem : ∀ m : Nat, m < 10 → Nat.digitChar m ∈ "0123456789".data := by
  decide

theorem toDigitsCore_mem (c : Char) :
    ∀ (fuel n : Nat) (ds : List Char), c ∈ Nat.toDigitsCore 10 fuel n ds →
      c ∈ ds ∨ c ∈ "0123456789".data
  | 0, _, ds, h => Or.inl (by simpa [Nat.toDigitsCore] using h)
  | fuel + 1, n, ds, h => by
    have hd : Nat.digitChar (n % 10) ∈ "0123456789".data :=
      digitChar_mem (n % 10) (Nat.mod_lt _ (by decide))
    rw [Nat.toDigitsCore] at h
    by_cases hz : n / 10 = 0
    · simp only [hz, if_true, List.mem_cons] at h
      rcases h with h | h
      · exact Or.inr (h ▸ hd)
      · exact Or.inl h
    · simp only [hz, if_false] at h
      rcases toDigitsCore_mem c fuel (n / 10) _ h with h | h
      · rw [List.mem_cons] at h
        rcases h with h | h
        · exact Or.inr (h ▸ hd)
        · exact Or.inl h
      · exact Or.inr h

/-- The decimal text of an index consists of digits. -/
theorem From_data_mem (n : Nat) (c : Char) (h : c ∈ (From n).data) :
    c ∈ "0123456789".data := by
  have h2 : c ∈ Nat.toDigitsCore 10 (n + 1) n [] := h
  rcases toDigitsCore_mem c _ _ _ h2 with h3 | h3
  · exact absurd h3 (List.not_mem_nil c)
  · exact h3

theorem paramToken_data (n : Nat) :
    (paramToken n).data = "_PARAM".data ++ ((From n).data ++ "_".data) := by
  simp [paramToken, String.data_append]

/-- A positional placeholder is written with the characters of `_PARAM` and
digits only. -/
theorem paramToken_data_mem (n : Nat) (c : Char) (h : c ∈ (paramToken n).data) :
    c ∈ "_PARAM0123456789".data := by
  rw [paramToken_data, List.mem_append, List.mem_append] at h
  rcases h with h | h | h
  · revert c
    decide
  · exact (by decide : ∀ d ∈ "0123456789".data, d ∈ "_PARAM0123456789".data) c
      (From_data_mem n c h)
  · revert c
    decide

theorem paramToken_data_ne_nil (n : Nat) : (paramToken n).data ≠ [] := by
  rw [paramToken_data]
  exact fun h => absurd (congrArg List.length h) (by simp)

theorem not_mem_paramToken_data (n : Nat) (c : Char) (h : c ∉ "_PARAM0123456789".data) :
    c ∉ (paramToken n).data :=
  fun hc => h (paramToken_data_mem n c hc)

/-! ## The three chained substitutions of the templating operations -/

/-- The chained substitutions on a template `pre <subject> mid <operator> <value>`,
on character lists: the previous sentence `s` is inserted, then rewritten by the
two later substitutions; the rest of the template receives the two tokens. -/
theorem replaceFrom_chain (pre s opTok valTok mrest : List Char) (m0 : Char)
    (hpre : '<' ∉ pre) (hm0o : m0 ∉ "<operator>".data) (hm0v : m0 ∉ "<value>".data)
    (hmrest : '<' ∉ mrest) (hto : '<' ∉ opTok) :
    replaceFrom "<value>".data valTok 0
      (replaceFrom "<operator>".data opTok 0
        (replaceFrom "<subject>".data s 0
          (pre ++ ("<subject>".data ++ (m0 :: mrest ++ "<operator> <value>".data)))))
    = pre ++ (replaceFrom "<value>".data valTok 0 (replaceFrom "<operator>".data opTok 0 s)
        ++ (m0 :: mrest ++ (opTok ++ ' ' :: valTok))) := by
  have hm0 : '<' ≠ m0 := fun h => hm0o (h ▸ (by decide))
  have hmid : '<' ∉ m0 :: mrest := by
    rw [List.mem_cons]
    exact fun h => h.elim hm0 hmrest
  have hsplit : "<operator> <value>".data = "<operator>".data ++ (' ' :: "<value>".data) := rfl
  -- first substitution
  have h1 : replaceFrom "<subject>".data s 0
      (pre ++ ("<subject>".data ++ (m0 :: mrest ++ "<operator> <value>".data)))
      = pre ++ (s ++ (m0 :: mrest ++ "<operator> <value>".data)) := by
    refine replaceFrom_single "<subject>".data s rfl pre _ hpre ?_
    intro h
    exact absurd (infix_of_infix_append_left "<subject>".data rfl _ (m0 :: mrest) hmid h)
      (by decide)
  -- second substitution
  have h2 : replaceFrom "<operator>".data opTok 0
      (pre ++ (s ++ (m0 :: mrest ++ "<operator> <value>".data)))
      = pre ++ (replaceFrom "<operator>".data opTok 0 s
          ++ (m0 :: mrest ++ (opTok ++ ' ' :: "<value>".data))) := by
    rw [replaceFrom_append_of_head_not_mem "<operator>".data opTok rfl pre _ hpre,
      List.cons_append,
      replaceFrom_append_sep "<operator>".data opTok hm0o (by decide) _ s 0 (Nat.zero_le _),
      hsplit,
      replaceFrom_single "<operator>".data opTok rfl mrest _ hmrest (by decide)]
    simp
  -- third substitution
  have h3 : replaceFrom "<value>".data valTok 0
      (pre ++ (replaceFrom "<operator>".data opTok 0 s
          ++ (m0 :: mrest ++ (opTok ++ ' ' :: "<value>".data))))
      = pre ++ (replaceFrom "<value>".data valTok 0 (replaceFrom "<operator>".data opTok 0 s)
          ++ (m0 :: mrest ++ (opTok ++ ' ' :: valTok))) := by
    have hmid2 : '<' ∉ mrest ++ (opTok ++ [' ']) := by
      simp only [List.mem_append, List.mem_singleton, not_or]
      exact ⟨hmrest, hto, by decide⟩
    have hre : mrest ++ (opTok ++ ' ' :: "<value>".data)
        = (mrest ++ (opTok ++ [' '])) ++ ("<value>".data ++ []) := by simp
    rw [replaceFrom_append_of_head_not_mem "<value>".data valTok rfl pre _ hpre,
      List.cons_append,
      replaceFrom_append_sep "<value>".data valTok hm0v (by decide) _ _ 0 (Nat.zero_le _),
      hre,
      replaceFrom_single "<value>".data valTok rfl _ [] hmid2 (by decide)]
    simp
  rw [h1, h2, h3]

theorem FindAndReplace_data (text search replacement : String) (h : search.data ≠ []) :
    (FindAndReplace text search replacement).data
      = replaceFrom search.data replacement.data 0 text.data := by
  simp [FindAndReplace, h]

/-- A text that does not contain the marker is returned unchanged. -/
theorem FindAndReplace_of_not_Contains (text search replacement : String)
    (h : ¬ Contains text search) : FindAndReplace text search replacement = text := by
  unfold FindAndReplace
  split
  · rfl
  · exact String.ext (replaceFrom_of_no_occurrence _ _ _ h)

/-- The chained substitutions on a template `pre <subject> mid <operator> <value>`,
on strings. -/
theorem FindAndReplace_chain (pre mid s opTok valTok : String) (m0 : Char)
    (mrest : List Char) (hmid : mid.data = m0 :: mrest)
    (hpre : '<' ∉ pre.data) (hm0o : m0 ∉ "<operator>".data) (hm0v : m0 ∉ "<value>".data)
    (hmrest : '<' ∉ mrest) (hto : '<' ∉ opTok.data) :
    FindAndReplace
      (FindAndReplace
        (FindAndReplace (pre ++ ("<subject>" ++ (mid ++ "<operator> <value>"))) "<subject>" s)
        "<operator>" opTok)
      "<value>" valTok
    = pre ++ (FindAndReplace (FindAndReplace s "<operator>" opTok) "<value>" valTok
        ++ (mid ++ (opTok ++ (" " ++ valTok)))) := by
  apply String.ext
  simp only [FindAndReplace_data _ "<subject>" _ (by decide),
    FindAndReplace_data _ "<operator>" _ (by decide),
    FindAndReplace_data _ "<value>" _ (by decide), String.data_append, hmid]
  exact replaceFrom_chain pre.data s.data opTok.data valTok.data mrest m0 hpre hm0o hm0v
    hmrest hto

theorem not_lt_mem_paramToken (n : Nat) : '<' ∉ (paramToken n).data :=
  not_mem_paramToken_data n '<' (by decide)

/-- Sentence written by `UseStandardOperatorParameters`, for every previous
sentence: the previous sentence, rewritten by the operator and value
substitutions, stands at the subject position of the template. -/
theorem UseStandardOperatorParameters_sentence (IsObject IsBehavior : String → Bool)
    (i : InstructionMetadata) (t : String)
    (hsize : i.parameters.length + 2 < 2 ^ SIZE_WIDTH) :
    (i.UseStandardOperatorParameters IsObject IsBehavior (fun s => s) t).sentence =
      if i.isObjectInstruction || i.isBehaviorInstruction then
        "Change " ++ (FindAndReplace
            (FindAndReplace i.sentence "<operator>" (paramToken i.parameters.length))
            "<value>" (paramToken (i.parameters.length + 1))
          ++ (" of _PARAM0_: " ++ (paramToken i.parameters.length
            ++ (" " ++ paramToken (i.parameters.length + 1)))))
      else
        "Change " ++ (FindAndReplace
            (FindAndReplace i.sentence "<operator>" (paramToken i.parameters.length))
            "<value>" (paramToken (i.parameters.length + 1))
          ++ (": " ++ (paramToken i.parameters.length
            ++ (" " ++ paramToken (i.parameters.length + 1))))) := by
  have h2 : sizeSub (i.parameters.length + 1 + 1) 2 = i.parameters.length := by
    rw [sizeSub_of_le _ _ hsize (by omega)]
    omega
  have h1 : sizeSub (i.parameters.length + 1 + 1) 1 = i.parameters.length + 1 := by
    rw [sizeSub_of_le _ _ hsize (by omega)]
    omega
  have hT1 : ("Change <subject> of _PARAM0_: <operator> <value>" : String)
      = "Change " ++ ("<subject>" ++ (" of _PARAM0_: " ++ "<operator> <value>")) := by decide
  have hT2 : ("Change <subject>: <operator> <value>" : String)
      = "Change " ++ ("<subject>" ++ (": " ++ "<operator> <value>")) := by decide
  simp only [InstructionMetadata.UseStandardOperatorParameters,
    InstructionMetadata.AddParameter, InstructionMetadata.SetManipulatedType,
    List.length_append, List.length_singleton, h1, h2]
  split
  · rw [hT1]
    exact FindAndReplace_chain "Change " " of _PARAM0_: " _ _ _ ' ' "of _PARAM0_: ".data rfl
      (by decide) (by decide) (by decide) (by decide) (not_lt_mem_paramToken _)
  · rw [hT2]
    exact FindAndReplace_chain "Change " ": " _ _ _ ':' " ".data rfl
      (by decide) (by decide) (by decide) (by decide) (not_lt_mem_paramToken _)

/-- Sentence written by `UseStandardRelationalOperatorParameters`, for every
previous sentence. -/
theorem UseStandardRelationalOperatorParameters_sentence (IsObject IsBehavior : String → Bool)
    (i : InstructionMetadata) (t : String)
    (hsize : i.parameters.length + 2 < 2 ^ SIZE_WIDTH) :
    (i.UseStandardRelationalOperatorParameters IsObject IsBehavior (fun s => s) t).sentence =
      if i.isObjectInstruction || i.isBehaviorInstruction then
        FindAndReplace
            (FindAndReplace i.sentence "<operator>" (paramToken i.parameters.length))
            "<value>" (paramToken (i.parameters.length + 1))
          ++ (" of _PARAM0_ " ++ (paramToken i.parameters.length
            ++ (" " ++ paramToken (i.parameters.length + 1))))
      else
        FindAndReplace
            (FindAndReplace i.sentence "<operator>" (paramToken i.parameters.length))
            "<value>" (paramToken (i.parameters.length + 1))
          ++ (" " ++ (paramToken i.parameters.length
            ++ (" " ++ paramToken (i.parameters.length + 1)))) := by
  have h2 : sizeSub (i.parameters.length + 1 + 1) 2 = i.parameters.length := by
    rw [sizeSub_of_le _ _ hsize (by omega)]
    omega
  have h1 : sizeSub (i.parameters.length + 1 + 1) 1 = i.parameters.length + 1 := by
    rw [sizeSub_of_le _ _ hsize (by omega)]
    omega
  have hT1 : ("<subject> of _PARAM0_ <operator> <value>" : String)
      = "" ++ ("<subject>" ++ (" of _PARAM0_ " ++ "<operator> <value>")) := by decide
  have hT2 : ("<subject> <operator> <value>" : String)
      = "" ++ ("<subject>" ++ (" " ++ "<operator> <value>")) := by decide
  have hnil : ∀ x : String, "" ++ x = x := fun x => String.ext (by simp [String.data_append])
  simp only [InstructionMetadata.UseStandardRelationalOperatorParameters,
    InstructionMetadata.AddParameter, InstructionMetadata.SetManipulatedType,
    List.length_append, List.length_singleton, h1, h2]
  split
  · rw [hT1, FindAndReplace_chain "" " of _PARAM0_ " _ _ _ ' ' "of _PARAM0_ ".data rfl
      (by decide) (by decide) (by decide) (by decide) (not_lt_mem_paramToken _), hnil]
  · rw [hT2, FindAndReplace_chain "" " " _ _ _ ' ' [] rfl
      (by decide) (by decide) (by decide) (by decide) (not_lt_mem_paramToken _), hnil]

/-! ## Markers and tokens in the rewritten sentence -/

/-- A marker that is absent from `body` is absent from `pre ++ body ++ suf` when
`pre` lacks its first character and `suf` its last character. -/
theorem not_Contains_frame (marker pre body suf : String) {x z : Char}
    (hx : marker.data.head? = some x) (hz : marker.data.getLast? = some z)
    (hpre : x ∉ pre.data) (hsuf : z ∉ suf.data) (hbody : ¬ Contains body marker) :
    ¬ Contains (pre ++ (body ++ suf)) marker := by
  intro h
  unfold Contains at h
  rw [String.data_append, String.data_append] at h
  exact hbody (infix_of_infix_append_right marker.data hz _ _ hsuf
    (infix_of_infix_append_left marker.data hx _ _ hpre h))

theorem operator_foreign_to_paramToken (n : Nat) :
    ∀ c ∈ "<operator>".data, c ∉ (paramToken n).data :=
  fun c hc => not_mem_paramToken_data n c
    ((by decide : ∀ d ∈ "<operator>".data, d ∉ "_PARAM0123456789".data) c hc)

theorem value_foreign_to_paramToken (n : Nat) :
    ∀ c ∈ "<value>".data, c ∉ (paramToken n).data :=
  fun c hc => not_mem_paramToken_data n c
    ((by decide : ∀ d ∈ "<value>".data, d ∉ "_PARAM0123456789".data) c hc)

/-- After the operator and value substitutions no `<operator>` marker is left. -/
theorem not_Contains_operator_after (s : String) (n m : Nat) :
    ¬ Contains (FindAndReplace (FindAndReplace s "<operator>" (paramToken n))
      "<value>" (paramToken m)) "<operator>" := by
  intro h
  unfold Contains at h
  rw [FindAndReplace_data _ "<value>" _ (by decide),
    FindAndReplace_data _ "<operator>" _ (by decide)] at h
  exact not_infix_replaceFrom "<operator>".data (paramToken n).data
    (paramToken_data_ne_nil n) (by decide) (operator_foreign_to_paramToken n) s.data 0
    (infix_of_infix_replaceFrom "<value>".data (paramToken m).data "<operator>".data
      (paramToken_data_ne_nil m) (by decide) (operator_foreign_to_paramToken m) _ 0 h)

/-- After the operator and value substitutions no `<value>` marker is left. -/
theorem not_Contains_value_after (s : String) (n m : Nat) :
    ¬ Contains (FindAndReplace (FindAndReplace s "<operator>" (paramToken n))
      "<value>" (paramToken m)) "<value>" := by
  intro h
  unfold Contains at h
  rw [FindAndReplace_data _ "<value>" _ (by decide)] at h
  exact not_infix_replaceFrom "<value>".data (paramToken m).data
    (paramToken_data_ne_nil m) (by decide) (value_foreign_to_paramToken m) _ 0 h

theorem gt_not_mem_paramToken (n : Nat) : '>' ∉ (paramToken n).data :=
  not_mem_paramToken_data n '>' (by decide)

/-- The text behind the subject in the four templates, once the tokens are in
place, holds neither `<` nor `>`. -/
theorem not_mem_template_tail (c : Char) (hc : c ∉ "_PARAM0123456789".data)
    (mid : String) (hmid : c ∉ mid.data) (hsp : c ≠ ' ') (n m : Nat) :
    c ∉ (mid ++ (paramToken n ++ (" " ++ paramToken m))).data := by
  simp only [String.data_append, List.mem_append, not_or]
  refine ⟨hmid, not_mem_paramToken_data n c hc, ?_, not_mem_paramToken_data m c hc⟩
  intro h
  exact hsp (List.mem_singleton.mp h)

theorem toString_eq_From (n : Nat) : toString n = From n := rfl

/-- The flat spelling of the rewritten sentence and its nested spelling. -/
theorem sentence_spelling (pre s midTok mid : String) (h : midTok = mid ++ "_PARAM")
    (n m : Nat) :
    pre ++ s ++ midTok ++ toString n ++ "_ _PARAM" ++ toString m ++ "_"
      = pre ++ (s ++ (mid ++ (paramToken n ++ (" " ++ paramToken m)))) := by
  have h1 : ("_ _PARAM" : String) = "_" ++ (" " ++ "_PARAM") := by decide
  rw [h, h1, toString_eq_From, toString_eq_From]
  apply String.ext
  simp [paramToken, String.data_append]

theorem sentence_spelling_nopre (s midTok mid : String) (h : midTok = mid ++ "_PARAM")
    (n m : Nat) :
    s ++ midTok ++ toString n ++ "_ _PARAM" ++ toString m ++ "_"
      = s ++ (mid ++ (paramToken n ++ (" " ++ paramToken m))) := by
  have h1 : ("_ _PARAM" : String) = "_" ++ (" " ++ "_PARAM") := by decide
  rw [h, h1, toString_eq_From, toString_eq_From]
  apply String.ext
  simp [paramToken, String.data_append]

theorem paramToken_spelling (n : Nat) : "_PARAM" ++ toString n ++ "_" = paramToken n := rfl

theorem Contains_of_data_eq (text marker : String) (a b : List Char)
    (h : text.data = a ++ (marker.data ++ b)) : Contains text marker :=
  ⟨a, b, by rw [h]; simp⟩

/-! ## Positions of two appended elements -/

theorem getElem?_append_pair_left {α : Type} (a b : α) :
    ∀ l : List α, (l ++ [a, b])[l.length]? = some a
  | [] => rfl
  | _ :: l => by simpa using getElem?_append_pair_left a b l

theorem getElem?_append_pair_right {α : Type} (a b : α) :
    ∀ l : List α, (l ++ [a, b])[l.length + 1]? = some b
  | [] => rfl
  | _ :: l => by simpa using getElem?_append_pair_right a b l

/-! ## Frame of the templating operations -/

/-- The two parameters appended by `UseStandardOperatorParameters`, and the fields
it leaves alone. -/
theorem UseStandardOperatorParameters_frame (IsObject IsBehavior : String → Bool)
    (translate : String → String) (i : InstructionMetadata) (t : String) :
    (i.UseStandardOperatorParameters IsObject IsBehavior translate t).parameters
      = i.parameters ++
        [{ ParameterMetadata.ctor with
            type := "operator", description := translate "Modification's sign" },
         { ParameterMetadata.ctor with
            type := if t = "number" then "expression" else t,
            description := translate "Value" }] ∧
    (i.UseStandardOperatorParameters IsObject IsBehavior translate t).manipulatedType = t ∧
    (i.UseStandardOperatorParameters IsObject IsBehavior translate t).isObjectInstruction
      = i.isObjectInstruction ∧
    (i.UseStandardOperatorParameters IsObject IsBehavior translate t).isBehaviorInstruction
      = i.isBehaviorInstruction ∧
    (i.UseStandardOperatorParameters IsObject IsBehavior translate t).extensionNamespace
      = i.extensionNamespace := by
  have he : ("" : String).isEmpty = true := rfl
  simp only [InstructionMetadata.UseStandardOperatorParameters,
    InstructionMetadata.AddParameter, InstructionMetadata.SetManipulatedType]
  split <;> simp [ParameterMetadata.ctor, he]

/-- The two parameters appended by `UseStandardRelationalOperatorParameters`, and
the fields it leaves alone. -/
theorem UseStandardRelationalOperatorParameters_frame (IsObject IsBehavior : String → Bool)
    (translate : String → String) (i : InstructionMetadata) (t : String) :
    (i.UseStandardRelationalOperatorParameters IsObject IsBehavior translate t).parameters
      = i.parameters ++
        [{ ParameterMetadata.ctor with
            type := "relationalOperator", description := translate "Sign of the test" },
         { ParameterMetadata.ctor with
            type := if t = "number" then "expression" else t,
            description := translate "Value to compare" }] ∧
    (i.UseStandardRelationalOperatorParameters IsObject IsBehavior translate t).manipulatedType
      = t ∧
    (i.UseStandardRelationalOperatorParameters IsObject IsBehavior
      translate t).isObjectInstruction = i.isObjectInstruction ∧
    (i.UseStandardRelationalOperatorParameters IsObject IsBehavior
      translate t).isBehaviorInstruction = i.isBehaviorInstruction ∧
    (i.UseStandardRelationalOperatorParameters IsObject IsBehavior
      translate t).extensionNamespace = i.extensionNamespace := by
  have he : ("" : String).isEmpty = true := rfl
  simp only [InstructionMetadata.UseStandardRelationalOperatorParameters,
    InstructionMetadata.AddParameter, InstructionMetadata.SetManipulatedType]
  split <;> simp [ParameterMetadata.ctor, he]

theorem Contains_append_of_Contains (a b c marker : String) (h : Contains b marker) :
    Contains (a ++ (b ++ c)) marker := by
  obtain ⟨u, v, huv⟩ := h
  exact ⟨a.data ++ u, v ++ c.data, by simp [String.data_append, ← huv]⟩

/-- Both tokens of a call of `UseStandardOperatorParameters` stand in the sentence
it writes, and no `<operator>` or `<value>` marker does. -/
theorem UseStandardOperatorParameters_tokens (IsObject IsBehavior : String → Bool)
    (i : InstructionMetadata) (t : String)
    (hsize : i.parameters.length + 2 < 2 ^ SIZE_WIDTH) :
    Contains (i.UseStandardOperatorParameters IsObject IsBehavior (fun s => s) t).sentence
      (paramToken i.parameters.length) ∧
    Contains (i.UseStandardOperatorParameters IsObject IsBehavior (fun s => s) t).sentence
      (paramToken (i.parameters.length + 1)) ∧
    ¬ Contains (i.UseStandardOperatorParameters IsObject IsBehavior (fun s => s) t).sentence
      "<operator>" ∧
    ¬ Contains (i.UseStandardOperatorParameters IsObject IsBehavior (fun s => s) t).sentence
      "<value>" := by
  rw [UseStandardOperatorParameters_sentence IsObject IsBehavior i t hsize]
  split
  · refine ⟨⟨"Change ".data ++ (_ ++ " of _PARAM0_: ".data), " ".data ++ _,
        by simp [String.data_append]; rfl⟩,
      ⟨"Change ".data ++ (_ ++ (" of _PARAM0_: ".data ++ (_ ++ " ".data))), [],
        by simp [String.data_append]; rfl⟩, ?_, ?_⟩
    · exact not_Contains_frame "<operator>" "Change " _ _ rfl rfl (by decide)
        (not_mem_template_tail '>' (by decide) _ (by decide) (by decide) _ _)
        (not_Contains_operator_after _ _ _)
    · exact not_Contains_frame "<value>" "Change " _ _ rfl rfl (by decide)
        (not_mem_template_tail '>' (by decide) _ (by decide) (by decide) _ _)
        (not_Contains_value_after _ _ _)
  · refine ⟨⟨"Change ".data ++ (_ ++ ": ".data), " ".data ++ _,
        by simp [String.data_append]; rfl⟩,
      ⟨"Change ".data ++ (_ ++ (": ".data ++ (_ ++ " ".data))), [],
        by simp [String.data_append]; rfl⟩, ?_, ?_⟩
    · exact not_Contains_frame "<operator>" "Change " _ _ rfl rfl (by decide)
        (not_mem_template_tail '>' (by decide) _ (by decide) (by decide) _ _)
        (not_Contains_operator_after _ _ _)
    · exact not_Contains_frame "<value>" "Change " _ _ rfl rfl (by decide)
        (not_mem_template_tail '>' (by decide) _ (by decide) (by decide) _ _)
        (not_Contains_value_after _ _ _)

/-! ## Frame of the parameter-adding operations and of call sequences -/

theorem applyCall_extensionNamespace (IsObject IsBehavior : String → Bool)
    (translate : String → String) (i : InstructionMetadata) (call : BuilderCall) :
    (i.applyCall IsObject IsBehavior translate call).extensionNamespace
      = i.extensionNamespace := by
  cases call with
  | AddParameter type description optionalObjectType parameterIsOptional => rfl
  | AddCodeOnlyParameter type supplementaryInformation => rfl
  | UseStandardOperatorParameters type =>
    exact (UseStandardOperatorParameters_frame IsObject IsBehavior translate i type).2.2.2.2
  | UseStandardRelationalOperatorParameters type =>
    exact (UseStandardRelationalOperatorParameters_frame IsObject IsBehavior translate i
      type).2.2.2.2

theorem applyCalls_extensionNamespace (IsObject IsBehavior : String → Bool)
    (translate : String → String) :
    ∀ (calls : List BuilderCall) (i : InstructionMetadata),
      (i.applyCalls IsObject IsBehavior translate calls).extensionNamespace
        = i.extensionNamespace
  | [], _ => rfl
  | call :: calls, i => by
    rw [InstructionMetadata.applyCalls,
      applyCalls_extensionNamespace IsObject IsBehavior translate calls,
      applyCall_extensionNamespace]

/-! ## The indices computed by the templating operations -/

/-- The sentence written by `UseStandardOperatorParameters` carries the tokens of
the two indices computed at the start of the operation. -/
theorem UseStandardOperatorParameters_sentence_indices (IsObject IsBehavior : String → Bool)
    (translate : String → String) (i : InstructionMetadata) (t : String) :
    (i.UseStandardOperatorParameters IsObject IsBehavior translate t).sentence =
      FindAndReplace
        (FindAndReplace
          (FindAndReplace
            (if i.isObjectInstruction || i.isBehaviorInstruction then
              translate "Change <subject> of _PARAM0_: <operator> <value>"
            else translate "Change <subject>: <operator> <value>")
            "<subject>" i.sentence)
          "<operator>"
          (paramToken
            (i.UseStandardOperatorParameters_indices IsObject IsBehavior translate t).1))
        "<value>"
        (paramToken
          (i.UseStandardOperatorParameters_indices IsObject IsBehavior translate t).2) := by
  simp only [InstructionMetadata.UseStandardOperatorParameters,
    InstructionMetadata.UseStandardOperatorParameters_indices,
    InstructionMetadata.AddParameter, InstructionMetadata.SetManipulatedType]
  split <;> rfl

/-- The sentence written by `UseStandardRelationalOperatorParameters` carries the
tokens of the two indices computed at the start of the operation. -/
theorem UseStandardRelationalOperatorParameters_sentence_indices
    (IsObject IsBehavior : String → Bool) (translate : String → String)
    (i : InstructionMetadata) (t : String) :
    (i.UseStandardRelationalOperatorParameters IsObject IsBehavior translate t).sentence =
      FindAndReplace
        (FindAndReplace
          (FindAndReplace
            (if i.isObjectInstruction || i.isBehaviorInstruction then
              translate "<subject> of _PARAM0_ <operator> <value>"
            else translate "<subject> <operator> <value>")
            "<subject>" i.sentence)
          "<operator>"
          (paramToken
            (i.UseStandardRelationalOperatorParameters_indices IsObject IsBehavior
              translate t).1))
        "<value>"
        (paramToken
          (i.UseStandardRelationalOperatorParameters_indices IsObject IsBehavior
            translate t).2) := by
  simp only [InstructionMetadata.UseStandardRelationalOperatorParameters,
    InstructionMetadata.UseStandardRelationalOperatorParameters_indices,
    InstructionMetadata.AddParameter, InstructionMetadata.SetManipulatedType]
  split <;> rfl

/-- Both index computations, on a parameter count within `size_t`. -/
theorem UseStandardOperatorParameters_indices_eq (IsObject IsBehavior : String → Bool)
    (translate : String → String) (i : InstructionMetadata) (t : String)
    (hsize : i.parameters.length + 2 < 2 ^ SIZE_WIDTH) :
    i.UseStandardOperatorParameters_indices IsObject IsBehavior translate t
      = (i.parameters.length, i.parameters.length + 1) := by
  simp only [InstructionMetadata.UseStandardOperatorParameters_indices,
    InstructionMetadata.AddParameter, InstructionMetadata.SetManipulatedType,
    List.length_append, List.length_singleton]
  rw [sizeSub_of_le _ 2 hsize (by omega), sizeSub_of_le _ 1 hsize (by omega)]
  rfl

theorem UseStandardRelationalOperatorParameters_indices_eq
    (IsObject IsBehavior : String → Bool) (translate : String → String)
    (i : InstructionMetadata) (t : String)
    (hsize : i.parameters.length + 2 < 2 ^ SIZE_WIDTH) :
    i.UseStandardRelationalOperatorParameters_indices IsObject IsBehavior translate t
      = (i.parameters.length, i.parameters.length + 1) := by
  simp only [InstructionMetadata.UseStandardRelationalOperatorParameters_indices,
    InstructionMetadata.AddParameter, InstructionMetadata.SetManipulatedType,
    List.length_append, List.length_singleton]
  rw [sizeSub_of_le _ 2 hsize (by omega), sizeSub_of_le _ 1 hsize (by omega)]
  rfl

/-- The subtraction of `size_t` does wrap when it is made on an empty list. -/
theorem sizeSub_wraps : sizeSub 0 2 = 2 ^ SIZE_WIDTH - 2 ∧ sizeSub 0 1 = 2 ^ SIZE_WIDTH - 1 := by
  decide

/-! ## Markers that survive a substitution -/

/-- A run of characters that lacks the first character of `sr` and starts the text
also starts the rewritten text: no occurrence of `sr` begins inside it. -/
theorem prefix_replaceFrom_of_prefix (sr rp : List Char) {y : Char}
    (hy : sr.head? = some y) :
    ∀ (m rest : List Char), y ∉ m → m <+: rest → m <+: replaceFrom sr rp 0 rest
  | [], _, _, _ => List.nil_prefix
  | d :: m, [], _, h => absurd (List.prefix_nil.mp h) (by simp)
  | d :: m, c :: rest, hym, h => by
    rw [List.cons_prefix_cons] at h
    have hne : y ≠ c := fun e => hym (e ▸ h.1 ▸ List.mem_cons_self _ _)
    have hym2 : y ∉ m := fun e => hym (List.mem_cons_of_mem _ e)
    rw [replaceFrom_zero_cons, isPrefixOf_cons_of_head_ne sr hy hne]
    simp only [Bool.false_eq_true, if_false]
    exact List.cons_prefix_cons.mpr ⟨h.1, prefix_replaceFrom_of_prefix sr rp hy m rest hym2 h.2⟩

/-- A marker `m` that cannot overlap an occurrence of `sr` survives the replacement
of `sr`: an occurrence of `m` in the text still to be read is in the rewritten
text. -/
theorem marker_survives_replaceFrom (rp : List Char) (x y : Char) (m1 sr1 : List Char)
    (hx : x ∉ sr1) (hy : y ∉ m1) (h1 : ¬ (x :: m1) <+: (y :: sr1))
    (h2 : ¬ (y :: sr1) <+: (x :: m1)) :
    ∀ (s : List Char) (k : Nat),
      (x :: m1) <:+: s.drop k → (x :: m1) <:+: replaceFrom (y :: sr1) rp k s
  | [], k, h => by
    simp at h
  | c :: rest, k + 1, h => by
    rw [replaceFrom]
    exact marker_survives_replaceFrom rp x y m1 sr1 hx hy h1 h2 rest k (by simpa using h)
  | c :: rest, 0, h => by
    rw [List.drop_zero] at h
    rw [replaceFrom_zero_cons]
    by_cases hp : (y :: sr1).isPrefixOf (c :: rest) = true
    · rw [if_pos hp]
      obtain ⟨t, ht⟩ := List.isPrefixOf_iff_prefix.mp hp
      rw [List.cons_append, List.cons.injEq] at ht
      obtain ⟨hc, hrest⟩ := ht
      -- the occurrence of the marker lies behind the occurrence of `sr`
      have hmt : (x :: m1) <:+: t := by
        rw [← hrest, List.infix_cons_iff] at h
        rcases h with h | h
        · exfalso
          have hsr : (y :: sr1) <+: c :: (sr1 ++ t) := by
            rw [← hc]
            exact List.prefix_append (y :: sr1) t
          by_cases hl : (x :: m1).length ≤ (y :: sr1).length
          · exact h1 (List.prefix_of_prefix_length_le h hsr hl)
          · exact h2 (List.prefix_of_prefix_length_le hsr h (by omega))
        · exact infix_of_infix_append_left (x :: m1) rfl t sr1 hx h
      have hdrop : rest.drop ((y :: sr1).length - 1) = t := by
        rw [← hrest]
        simp
      have ih := marker_survives_replaceFrom rp x y m1 sr1 hx hy h1 h2 rest
        ((y :: sr1).length - 1) (by rw [hdrop]; exact hmt)
      exact ih.trans (List.suffix_append rp _).isInfix
    · rw [if_neg hp, List.infix_cons_iff]
      rw [List.infix_cons_iff] at h
      rcases h with h | h
      · left
        rw [List.cons_prefix_cons] at h ⊢
        exact ⟨h.1, prefix_replaceFrom_of_prefix (y :: sr1) rp rfl m1 rest hy h.2⟩
      · right
        exact marker_survives_replaceFrom rp x y m1 sr1 hx hy h1 h2 rest 0
          (by rw [List.drop_zero]; exact h)

theorem subject_foreign_to_paramToken (n : Nat) :
    ∀ c ∈ "<subject>".data, c ∉ (paramToken n).data :=
  fun c hc => not_mem_paramToken_data n c
    ((by decide : ∀ d ∈ "<subject>".data, d ∉ "_PARAM0123456789".data) c hc)

/-- The operator and value substitutions neither create nor destroy an occurrence
of the `<subject>` marker. -/
theorem Contains_subject_after_iff (s : String) (n m : Nat) :
    Contains (FindAndReplace (FindAndReplace s "<operator>" (paramToken n))
      "<value>" (paramToken m)) "<subject>" ↔ Contains s "<subject>" := by
  unfold Contains
  rw [FindAndReplace_data _ "<value>" _ (by decide),
    FindAndReplace_data _ "<operator>" _ (by decide)]
  constructor
  · intro h
    exact infix_of_infix_replaceFrom "<operator>".data (paramToken n).data "<subject>".data
      (paramToken_data_ne_nil n) (by decide) (subject_foreign_to_paramToken n) s.data 0
      (infix_of_infix_replaceFrom "<value>".data (paramToken m).data "<subject>".data
        (paramToken_data_ne_nil m) (by decide) (subject_foreign_to_paramToken m) _ 0 h)
  · intro h
    exact marker_survives_replaceFrom (paramToken m).data '<' '<' "subject>".data
      "value>".data (by decide) (by decide) (by decide) (by decide) _ 0
      (marker_survives_replaceFrom (paramToken n).data '<' '<' "subject>".data
        "operator>".data (by decide) (by decide) (by decide) (by decide) s.data 0 h)

/-- A marker is in `pre ++ body ++ suf` exactly when it is in `body`, when `pre`
lacks its first character and `suf` its last character. -/
theorem Contains_frame_iff (marker pre body suf : String) {x z : Char}
    (hx : marker.data.head? = some x) (hz : marker.data.getLast? = some z)
    (hpre : x ∉ pre.data) (hsuf : z ∉ suf.data) :
    Contains (pre ++ (body ++ suf)) marker ↔ Contains body marker := by
  constructor
  · intro h
    by_contra hb
    exact not_Contains_frame marker pre body suf hx hz hpre hsuf hb h
  · intro h
    exact Contains_append_of_Contains pre body suf marker h

theorem empty_append_eq (x : String) : "" ++ x = x :=
  String.ext (by simp [String.data_append])

/-- Markers in a rewritten sentence `pre ++ s' ++ mid ++ tokens`, where `s'` is the
previous sentence after the operator and value substitutions: no `<operator>`, no
`<value>`, and `<subject>` exactly when the previous sentence held it. -/
theorem rewritten_sentence_markers (pre mid s : String) (n m : Nat)
    (hpre : '<' ∉ pre.data) (hmid : '>' ∉ mid.data) :
    ¬ Contains (pre ++ (FindAndReplace (FindAndReplace s "<operator>" (paramToken n))
        "<value>" (paramToken m) ++ (mid ++ (paramToken n ++ (" " ++ paramToken m)))))
      "<operator>" ∧
    ¬ Contains (pre ++ (FindAndReplace (FindAndReplace s "<operator>" (paramToken n))
        "<value>" (paramToken m) ++ (mid ++ (paramToken n ++ (" " ++ paramToken m)))))
      "<value>" ∧
    (Contains (pre ++ (FindAndReplace (FindAndReplace s "<operator>" (paramToken n))
        "<value>" (paramToken m) ++ (mid ++ (paramToken n ++ (" " ++ paramToken m)))))
      "<subject>" ↔ Contains s "<subject>") := by
  have htail : '>' ∉ (mid ++ (paramToken n ++ (" " ++ paramToken m))).data :=
    not_mem_template_tail '>' (by decide) mid hmid (by decide) n m
  refine ⟨?_, ?_, ?_⟩
  · exact not_Contains_frame "<operator>" pre _ _ rfl rfl hpre htail
      (not_Contains_operator_after s n m)
  · exact not_Contains_frame "<value>" pre _ _ rfl rfl hpre htail
      (not_Contains_value_after s n m)
  · rw [Contains_frame_iff "<subject>" pre _ _ rfl rfl hpre htail]
    exact Contains_subject_after_iff s n m

/-! ## Properties -/

/-- C1. Round trip of the serialization of `ParameterMetadata`: for every `p`,
every attribute tree `e` (empty or already holding attributes) and every target
`q`, after `p.SerializeTo(e)` followed by `q.UnserializeFrom(e)` the object `q`
equals `p` on each of the eight fields `type`, `supplementaryInformation`,
`optional`, `description`, `longDescription`, `codeOnly`, `defaultValue` and
`name`. -/
theorem C1_serialization_round_trip (p q : ParameterMetadata) (e : SerializerElement) :
    (q.UnserializeFrom (p.SerializeTo e)).type = p.type ∧
    (q.UnserializeFrom (p.SerializeTo e)).supplementaryInformation
      = p.supplementaryInformation ∧
    (q.UnserializeFrom (p.SerializeTo e)).optional = p.optional ∧
    (q.UnserializeFrom (p.SerializeTo e)).description = p.description ∧
    (q.UnserializeFrom (p.SerializeTo e)).longDescription = p.longDescription ∧
    (q.UnserializeFrom (p.SerializeTo e)).codeOnly = p.codeOnly ∧
    (q.UnserializeFrom (p.SerializeTo e)).defaultValue = p.defaultValue ∧
    (q.UnserializeFrom (p.SerializeTo e)).name = p.name := by
  rw [UnserializeFrom_SerializeTo_eq]
  exact ⟨rfl, rfl, rfl, rfl, rfl, rfl, rfl, rfl⟩

/-- C2. Resolution rule of `AddParameter` for `supplementaryInformation`: the
parameter appended by `AddParameter` stores (1) the extension namespace followed
by `optionalObjectType` when the type classifies as object or behavior and
`optionalObjectType` is not empty, (2) the empty string when the type classifies
as object or behavior and `optionalObjectType` is empty, and (3)
`optionalObjectType` unchanged when the type is neither object nor behavior. -/
theorem C2_AddParameter_supplementaryInformation (IsObject IsBehavior : String → Bool)
    (i : InstructionMetadata) (type description optionalObjectType : String)
    (isOptional : Bool) :
    ∃ info : ParameterMetadata,
      (i.AddParameter IsObject IsBehavior type description optionalObjectType
        isOptional).parameters = i.parameters ++ [info] ∧
      ((IsObject type = true ∨ IsBehavior type = true) → optionalObjectType ≠ "" →
        info.supplementaryInformation = i.extensionNamespace ++ optionalObjectType) ∧
      ((IsObject type = true ∨ IsBehavior type = true) → optionalObjectType = "" →
        info.supplementaryInformation = "") ∧
      (IsObject type = false → IsBehavior type = false →
        info.supplementaryInformation = optionalObjectType) := by
  refine ⟨_, rfl, ?_, ?_, ?_⟩
  · intro h hne
    have hc : (IsObject type || IsBehavior type) = true := by simpa using h
    have he : optionalObjectType.isEmpty = false :=
      Bool.eq_false_iff.mpr (fun hx => hne ((String.isEmpty_iff _).mp hx))
    simp [ParameterMetadata.ctor, hc, he]
  · intro h he
    have hc : (IsObject type || IsBehavior type) = true := by simpa using h
    have he2 : optionalObjectType.isEmpty = true := (String.isEmpty_iff _).mpr he
    simp [ParameterMetadata.ctor, hc, he2]
  · intro ho hb
    simp [ParameterMetadata.ctor, ho, hb]

/-- C2, the three calls named in the specification, on an instruction built with
the extension namespace `"MyExt::"` and a classification in which `"object"` is an
object tag, `"behavior"` a behavior tag and `"number"` neither: the stored values
are `"MyExt::Sprite"`, `""` and `"5"`. -/
theorem C2_AddParameter_supplementaryInformation_witness :
    (∃ info : ParameterMetadata,
      ((InstructionMetadata.ctorFull "MyExt::" "n" "f" "d" "s" "g" "i" "si").AddParameter
        (fun t => t == "object") (fun t => t == "behavior") "object" "d" "Sprite"
        false).parameters = [info] ∧ info.supplementaryInformation = "MyExt::Sprite") ∧
    (∃ info : ParameterMetadata,
      ((InstructionMetadata.ctorFull "MyExt::" "n" "f" "d" "s" "g" "i" "si").AddParameter
        (fun t => t == "object") (fun t => t == "behavior") "object" "d" ""
        false).parameters = [info] ∧ info.supplementaryInformation = "") ∧
    (∃ info : ParameterMetadata,
      ((InstructionMetadata.ctorFull "MyExt::" "n" "f" "d" "s" "g" "i" "si").AddParameter
        (fun t => t == "object") (fun t => t == "behavior") "number" "d" "5"
        false).parameters = [info] ∧ info.supplementaryInformation = "5") := by
  refine ⟨?_, ?_, ?_⟩
  · obtain ⟨info, hp, h1, _, _⟩ := C2_AddParameter_supplementaryInformation
      (fun t => t == "object") (fun t => t == "behavior")
      (InstructionMetadata.ctorFull "MyExt::" "n" "f" "d" "s" "g" "i" "si")
      "object" "d" "Sprite" false
    exact ⟨info, hp, h1 (Or.inl (by decide)) (by decide)⟩
  · obtain ⟨info, hp, _, h2, _⟩ := C2_AddParameter_supplementaryInformation
      (fun t => t == "object") (fun t => t == "behavior")
      (InstructionMetadata.ctorFull "MyExt::" "n" "f" "d" "s" "g" "i" "si")
      "object" "d" "" false
    exact ⟨info, hp, h2 (Or.inl (by decide)) rfl⟩
  · obtain ⟨info, hp, _, _, h3⟩ := C2_AddParameter_supplementaryInformation
      (fun t => t == "object") (fun t => t == "behavior")
      (InstructionMetadata.ctorFull "MyExt::" "n" "f" "d" "s" "g" "i" "si")
      "number" "d" "5" false
    exact ⟨info, hp, h3 (by decide) (by decide)⟩

/-- C3, as stated, fails. The instruction built by the full constructor with the
sentence `"<operator>"` has both flags false and no parameter; after
`UseStandardOperatorParameters("number")` its sentence is
`"Change _PARAM0_: _PARAM0_ _PARAM1_"`, not the template with the previous
sentence verbatim as the subject, `"Change <operator>: _PARAM0_ _PARAM1_"`: the
marker inside the inserted sentence is rewritten by the second substitution. -/
theorem C3_counterexample :
    (InstructionMetadata.ctorFull "Ext::" "Act" "Action" "An action" "<operator>" "" ""
      "").isObjectInstruction = false ∧
    (InstructionMetadata.ctorFull "Ext::" "Act" "Action" "An action" "<operator>" "" ""
      "").isBehaviorInstruction = false ∧
    (InstructionMetadata.ctorFull "Ext::" "Act" "Action" "An action" "<operator>" "" ""
      "").parameters.length = 0 ∧
    ((InstructionMetadata.ctorFull "Ext::" "Act" "Action" "An action" "<operator>" "" ""
      "").UseStandardOperatorParameters (fun t => t == "object") (fun t => t == "behavior")
      (fun s => s) "number").sentence = "Change _PARAM0_: _PARAM0_ _PARAM1_" ∧
    ((InstructionMetadata.ctorFull "Ext::" "Act" "Action" "An action" "<operator>" "" ""
      "").UseStandardOperatorParameters (fun t => t == "object") (fun t => t == "behavior")
      (fun s => s) "number").sentence
      ≠ "Change " ++ "<operator>" ++ ": _PARAM" ++ toString 0 ++ "_ _PARAM" ++ toString (0 + 1)
          ++ "_" := by
  decide

/-- C3, amended. For every instruction with `isObjectInstruction = false` and
`isBehaviorInstruction = false`, holding `n` parameters (with `n + 2` in the range
of `size_t`) and a sentence `s`, and for every type `t`, after
`UseStandardOperatorParameters(t)` (translation taken as the identity) the sentence
is `"Change " ++ s ++ ": _PARAM" ++ decimal(n) ++ "_ _PARAM" ++ decimal(n+1) ++ "_"`,
with the previous sentence verbatim as the subject, exactly when `s` contains
neither the marker `<operator>` nor the marker `<value>`. -/
theorem C3_sentence_rewriting_amended (IsObject IsBehavior : String → Bool)
    (i : InstructionMetadata) (t : String)
    (hobj : i.isObjectInstruction = false) (hbeh : i.isBehaviorInstruction = false)
    (hsize : i.parameters.length + 2 < 2 ^ SIZE_WIDTH) :
    (i.UseStandardOperatorParameters IsObject IsBehavior (fun s => s) t).sentence
        = "Change " ++ i.sentence ++ ": _PARAM" ++ toString i.parameters.length ++ "_ _PARAM"
          ++ toString (i.parameters.length + 1) ++ "_"
      ↔ (¬ Contains i.sentence "<operator>" ∧ ¬ Contains i.sentence "<value>") := by
  rw [UseStandardOperatorParameters_sentence IsObject IsBehavior i t hsize,
    sentence_spelling "Change " i.sentence ": _PARAM" ": " (by decide)]
  simp only [hobj, hbeh, Bool.or_self, Bool.false_eq_true, if_false]
  constructor
  · intro h
    have hd := congrArg String.data h
    simp only [String.data_append] at hd
    have hs : FindAndReplace (FindAndReplace i.sentence "<operator>"
        (paramToken i.parameters.length)) "<value>" (paramToken (i.parameters.length + 1))
        = i.sentence :=
      String.ext (List.append_cancel_right (List.append_cancel_left hd))
    have h1 := not_Contains_operator_after i.sentence i.parameters.length
      (i.parameters.length + 1)
    have h2 := not_Contains_value_after i.sentence i.parameters.length
      (i.parameters.length + 1)
    rw [hs] at h1 h2
    exact ⟨h1, h2⟩
  · rintro ⟨h1, h2⟩
    rw [FindAndReplace_of_not_Contains _ _ _ h1, FindAndReplace_of_not_Contains _ _ _ h2]

/-- C3, amended, at the instruction built with the sentence `"the score"`: the
sentence becomes `"Change the score: _PARAM0_ _PARAM1_"`. -/
theorem C3_sentence_rewriting_amended_witness :
    ((InstructionMetadata.ctorFull "Ext::" "Act" "Action" "An action" "the score" "" ""
      "").UseStandardOperatorParameters (fun t => t == "object") (fun t => t == "behavior")
      (fun s => s) "number").sentence = "Change the score: _PARAM0_ _PARAM1_" :=
  ((C3_sentence_rewriting_amended (fun t => t == "object") (fun t => t == "behavior")
    (InstructionMetadata.ctorFull "Ext::" "Act" "Action" "An action" "the score" "" "" "")
    "number" rfl rfl (by decide)).mpr ⟨by decide, by decide⟩).trans (by decide)

/-- C4. Sentence templating for an object or behavior instruction: with
`isObjectInstruction` or `isBehaviorInstruction` set, `n` parameters (with `n + 2`
in the range of `size_t`) and a sentence `s` that contains none of the markers
`<subject>`, `<operator>`, `<value>`, after `UseStandardOperatorParameters(t)` the
sentence equals
`"Change " ++ s ++ " of _PARAM0_: _PARAM" ++ decimal(n) ++ "_ _PARAM" ++ decimal(n+1) ++ "_"`;
it contains both placeholder tokens and `s`, and none of the three markers. -/
theorem C4_object_sentence_templating (IsObject IsBehavior : String → Bool)
    (i : InstructionMetadata) (t : String)
    (hflag : i.isObjectInstruction = true ∨ i.isBehaviorInstruction = true)
    (hsize : i.parameters.length + 2 < 2 ^ SIZE_WIDTH)
    (hs : ¬ Contains i.sentence "<subject>") (ho : ¬ Contains i.sentence "<operator>")
    (hv : ¬ Contains i.sentence "<value>") :
    (i.UseStandardOperatorParameters IsObject IsBehavior (fun s => s) t).sentence
        = "Change " ++ i.sentence ++ " of _PARAM0_: _PARAM" ++ toString i.parameters.length
          ++ "_ _PARAM" ++ toString (i.parameters.length + 1) ++ "_" ∧
    Contains (i.UseStandardOperatorParameters IsObject IsBehavior (fun s => s) t).sentence
      ("_PARAM" ++ toString i.parameters.length ++ "_") ∧
    Contains (i.UseStandardOperatorParameters IsObject IsBehavior (fun s => s) t).sentence
      ("_PARAM" ++ toString (i.parameters.length + 1) ++ "_") ∧
    Contains (i.UseStandardOperatorParameters IsObject IsBehavior (fun s => s) t).sentence
      i.sentence ∧
    ¬ Contains (i.UseStandardOperatorParameters IsObject IsBehavior (fun s => s) t).sentence
      "<subject>" ∧
    ¬ Contains (i.UseStandardOperatorParameters IsObject IsBehavior (fun s => s) t).sentence
      "<operator>" ∧
    ¬ Contains (i.UseStandardOperatorParameters IsObject IsBehavior (fun s => s) t).sentence
      "<value>" := by
  have hc : (i.isObjectInstruction || i.isBehaviorInstruction) = true := by simpa using hflag
  have hsent : (i.UseStandardOperatorParameters IsObject IsBehavior (fun s => s) t).sentence
      = "Change " ++ (i.sentence ++ (" of _PARAM0_: " ++ (paramToken i.parameters.length
          ++ (" " ++ paramToken (i.parameters.length + 1))))) := by
    rw [UseStandardOperatorParameters_sentence IsObject IsBehavior i t hsize, if_pos hc,
      FindAndReplace_of_not_Contains _ _ _ ho, FindAndReplace_of_not_Contains _ _ _ hv]
  rw [sentence_spelling "Change " i.sentence " of _PARAM0_: _PARAM" " of _PARAM0_: "
    (by decide), paramToken_spelling, paramToken_spelling, hsent]
  refine ⟨rfl, ?_, ?_, ?_, ?_, ?_, ?_⟩
  · exact ⟨"Change ".data ++ (i.sentence.data ++ " of _PARAM0_: ".data),
      " ".data ++ (paramToken (i.parameters.length + 1)).data,
      by simp [String.data_append]⟩
  · exact ⟨"Change ".data ++ (i.sentence.data ++ (" of _PARAM0_: ".data
        ++ ((paramToken i.parameters.length).data ++ " ".data))), [],
      by simp [String.data_append]⟩
  · exact ⟨"Change ".data, " of _PARAM0_: ".data ++ ((paramToken i.parameters.length).data
        ++ (" ".data ++ (paramToken (i.parameters.length + 1)).data)),
      by simp [String.data_append]⟩
  · exact not_Contains_frame "<subject>" "Change " i.sentence _ rfl rfl (by decide)
      (not_mem_template_tail '>' (by decide) _ (by decide) (by decide) _ _) hs
  · exact not_Contains_frame "<operator>" "Change " i.sentence _ rfl rfl (by decide)
      (not_mem_template_tail '>' (by decide) _ (by decide) (by decide) _ _) ho
  · exact not_Contains_frame "<value>" "Change " i.sentence _ rfl rfl (by decide)
      (not_mem_template_tail '>' (by decide) _ (by decide) (by decide) _ _) hv

/-- C4 at the instruction of the specification, one parameter (the object), the sentence
`"the X"` and the type `"number"`: the sentence becomes
`"Change the X of _PARAM0_: _PARAM1_ _PARAM2_"`. -/
theorem C4_object_sentence_templating_witness :
    sampleObjectInstruction.parameters.length = 1 ∧
    (sampleObjectInstruction.UseStandardOperatorParameters (fun t => t == "object")
      (fun t => t == "behavior") (fun s => s) "number").sentence
      = "Change the X of _PARAM0_: _PARAM1_ _PARAM2_" :=
  ⟨rfl, (C4_object_sentence_templating (fun t => t == "object") (fun t => t == "behavior")
    sampleObjectInstruction "number" (Or.inl rfl) (by decide) (by decide) (by decide)
    (by decide)).1.trans (by decide)⟩

/-- C5. Parameters appended by `UseStandardOperatorParameters`: for every
instruction holding `n` parameters and every type `t`, after the call the
instruction holds `n + 2` parameters, the earlier ones followed by two new ones,
`manipulatedType` equals `t`, the parameter at index `n` has type `"operator"`, and
the parameter at index `n + 1` has type `"expression"` when `t = "number"` and type
`t` otherwise; both new parameters have `codeOnly = false`, `optional = false` and
an empty `supplementaryInformation`. -/
theorem C5_appended_parameters (IsObject IsBehavior : String → Bool)
    (translate : String → String) (i : InstructionMetadata) (t : String) :
    ∃ p1 p2 : ParameterMetadata,
      (i.UseStandardOperatorParameters IsObject IsBehavior translate t).parameters
        = i.parameters ++ [p1, p2] ∧
      (i.UseStandardOperatorParameters IsObject IsBehavior translate t).parameters.length
        = i.parameters.length + 2 ∧
      (i.UseStandardOperatorParameters IsObject IsBehavior translate t).manipulatedType = t ∧
      (i.UseStandardOperatorParameters IsObject IsBehavior translate
        t).parameters[i.parameters.length]? = some p1 ∧
      (i.UseStandardOperatorParameters IsObject IsBehavior translate
        t).parameters[i.parameters.length + 1]? = some p2 ∧
      p1.type = "operator" ∧
      (t = "number" → p2.type = "expression") ∧
      (t ≠ "number" → p2.type = t) ∧
      p1.codeOnly = false ∧ p1.optional = false ∧ p1.supplementaryInformation = "" ∧
      p2.codeOnly = false ∧ p2.optional = false ∧ p2.supplementaryInformation = "" := by
  obtain ⟨hp, hm, _, _, _⟩ :=
    UseStandardOperatorParameters_frame IsObject IsBehavior translate i t
  refine ⟨_, _, hp, ?_, hm, ?_, ?_, rfl, ?_, ?_, rfl, rfl, rfl, rfl, rfl, rfl⟩
  · rw [hp]
    simp
  · rw [hp]
    exact getElem?_append_pair_left _ _ _
  · rw [hp]
    exact getElem?_append_pair_right _ _ _
  · intro h
    simp [h]
  · intro h
    simp [h]

/-- C5 at the two types named in the specification: on the free sample instruction, which
has no parameter, the value parameter (index 1) has type `"expression"` for
`"number"` and type `"string"` for `"string"`. -/
theorem C5_appended_parameters_witness :
    (∃ p1 p2 : ParameterMetadata,
      (sampleFreeInstruction.UseStandardOperatorParameters (fun t => t == "object")
        (fun t => t == "behavior") (fun s => s) "number").parameters = [p1, p2] ∧
      p1.type = "operator" ∧ p2.type = "expression") ∧
    (∃ p1 p2 : ParameterMetadata,
      (sampleFreeInstruction.UseStandardOperatorParameters (fun t => t == "object")
        (fun t => t == "behavior") (fun s => s) "string").parameters = [p1, p2] ∧
      p1.type = "operator" ∧ p2.type = "string") := by
  constructor
  · obtain ⟨p1, p2, hp, _, _, _, _, h1, h2, _⟩ := C5_appended_parameters
      (fun t => t == "object") (fun t => t == "behavior") (fun s => s)
      sampleFreeInstruction "number"
    exact ⟨p1, p2, hp, h1, h2 rfl⟩
  · obtain ⟨p1, p2, hp, _, _, _, _, h1, _, h3, _⟩ := C5_appended_parameters
      (fun t => t == "object") (fun t => t == "behavior") (fun s => s)
      sampleFreeInstruction "string"
    exact ⟨p1, p2, hp, h1, h3 (by decide)⟩

/-- C6. `UseStandardRelationalOperatorParameters` has the shape of the assignment
variant with comparison phrasing: for every instruction holding `n` parameters
(with `n + 2` in the range of `size_t`) and a sentence `s` that contains none of
the markers `<subject>`, `<operator>`, `<value>`, and every type `t`, after the
call `manipulatedType` equals `t`, the parameter at index `n` has type
`"relationalOperator"`, the parameter at index `n + 1` has type `"expression"` when
`t = "number"` and `t` otherwise, and the sentence equals
`s ++ " of _PARAM0_ _PARAM" ++ decimal(n) ++ "_ _PARAM" ++ decimal(n+1) ++ "_"` when
`isObjectInstruction` or `isBehaviorInstruction` is set, and
`s ++ " _PARAM" ++ decimal(n) ++ "_ _PARAM" ++ decimal(n+1) ++ "_"` otherwise
(translation taken as the identity). -/
theorem C6_relational_variant (IsObject IsBehavior : String → Bool)
    (i : InstructionMetadata) (t : String)
    (hsize : i.parameters.length + 2 < 2 ^ SIZE_WIDTH)
    (hs : ¬ Contains i.sentence "<subject>") (ho : ¬ Contains i.sentence "<operator>")
    (hv : ¬ Contains i.sentence "<value>") :
    (i.UseStandardRelationalOperatorParameters IsObject IsBehavior (fun s => s)
      t).manipulatedType = t ∧
    (∃ p1 p2 : ParameterMetadata,
      (i.UseStandardRelationalOperatorParameters IsObject IsBehavior (fun s => s)
        t).parameters = i.parameters ++ [p1, p2] ∧
      (i.UseStandardRelationalOperatorParameters IsObject IsBehavior (fun s => s)
        t).parameters[i.parameters.length]? = some p1 ∧
      (i.UseStandardRelationalOperatorParameters IsObject IsBehavior (fun s => s)
        t).parameters[i.parameters.length + 1]? = some p2 ∧
      p1.type = "relationalOperator" ∧
      (t = "number" → p2.type = "expression") ∧
      (t ≠ "number" → p2.type = t)) ∧
    ((i.isObjectInstruction = true ∨ i.isBehaviorInstruction = true) →
      (i.UseStandardRelationalOperatorParameters IsObject IsBehavior (fun s => s) t).sentence
        = i.sentence ++ " of _PARAM0_ _PARAM" ++ toString i.parameters.length ++ "_ _PARAM"
          ++ toString (i.parameters.length + 1) ++ "_") ∧
    ((i.isObjectInstruction = false ∧ i.isBehaviorInstruction = false) →
      (i.UseStandardRelationalOperatorParameters IsObject IsBehavior (fun s => s) t).sentence
        = i.sentence ++ " _PARAM" ++ toString i.parameters.length ++ "_ _PARAM"
          ++ toString (i.parameters.length + 1) ++ "_") := by
  have _hs := hs
  obtain ⟨hp, hm, _, _, _⟩ :=
    UseStandardRelationalOperatorParameters_frame IsObject IsBehavior (fun s => s) i t
  refine ⟨hm, ⟨_, _, hp, ?_, ?_, rfl, ?_, ?_⟩, ?_, ?_⟩
  · rw [hp]
    exact getElem?_append_pair_left _ _ _
  · rw [hp]
    exact getElem?_append_pair_right _ _ _
  · intro h
    simp [h]
  · intro h
    simp [h]
  · intro hflag
    have hc : (i.isObjectInstruction || i.isBehaviorInstruction) = true := by
      simpa using hflag
    rw [UseStandardRelationalOperatorParameters_sentence IsObject IsBehavior i t hsize,
      if_pos hc, FindAndReplace_of_not_Contains _ _ _ ho,
      FindAndReplace_of_not_Contains _ _ _ hv,
      sentence_spelling_nopre i.sentence " of _PARAM0_ _PARAM" " of _PARAM0_ " (by decide)]
  · rintro ⟨h1, h2⟩
    rw [UseStandardRelationalOperatorParameters_sentence IsObject IsBehavior i t hsize,
      FindAndReplace_of_not_Contains _ _ _ ho, FindAndReplace_of_not_Contains _ _ _ hv,
      sentence_spelling_nopre i.sentence " _PARAM" " " (by decide)]
    simp [h1, h2]

/-- C6 at the two sample instructions with the type `"number"`: the object
instruction gets `"the X of _PARAM0_ _PARAM1_ _PARAM2_"`, the free instruction
`"the score _PARAM0_ _PARAM1_"`. -/
theorem C6_relational_variant_witness :
    (sampleObjectInstruction.UseStandardRelationalOperatorParameters (fun t => t == "object")
      (fun t => t == "behavior") (fun s => s) "number").sentence
      = "the X of _PARAM0_ _PARAM1_ _PARAM2_" ∧
    (sampleFreeInstruction.UseStandardRelationalOperatorParameters (fun t => t == "object")
      (fun t => t == "behavior") (fun s => s) "number").sentence
      = "the score _PARAM0_ _PARAM1_" :=
  ⟨((C6_relational_variant (fun t => t == "object") (fun t => t == "behavior")
      sampleObjectInstruction "number" (by decide) (by decide) (by decide)
      (by decide)).2.2.1 (Or.inl rfl)).trans (by decide),
   ((C6_relational_variant (fun t => t == "object") (fun t => t == "behavior")
      sampleFreeInstruction "number" (by decide) (by decide) (by decide)
      (by decide)).2.2.2 ⟨rfl, rfl⟩).trans (by decide)⟩

/-- C7. Chaining nests sentences: for every instruction (any flags, any initial
sentence, `n` parameters with `n + 4` in the range of `size_t`) and all types `t1`,
`t2`, with `i1` the instruction after `UseStandardOperatorParameters(t1)` and `i2`
the instruction after a second call `UseStandardOperatorParameters(t2)`, `i2` holds
`n + 4` parameters and its sentence is the template with the sentence of `i1`
inserted verbatim as the subject and the new tokens `_PARAM(n+2)_` and
`_PARAM(n+3)_`, in the non-object case and in the object/behavior case; the tokens
`_PARAM(n)_` and `_PARAM(n+1)_` of the first call are still present. -/
theorem C7_chaining (IsObject IsBehavior : String → Bool) (i i1 i2 : InstructionMetadata)
    (t1 t2 : String) (hsize : i.parameters.length + 4 < 2 ^ SIZE_WIDTH)
    (h1 : i1 = i.UseStandardOperatorParameters IsObject IsBehavior (fun s => s) t1)
    (h2 : i2 = i1.UseStandardOperatorParameters IsObject IsBehavior (fun s => s) t2) :
    i2.parameters.length = i.parameters.length + 4 ∧
    ((i.isObjectInstruction = false ∧ i.isBehaviorInstruction = false) →
      i2.sentence = "Change " ++ i1.sentence ++ ": _PARAM"
        ++ toString (i.parameters.length + 2) ++ "_ _PARAM"
        ++ toString (i.parameters.length + 3) ++ "_") ∧
    ((i.isObjectInstruction = true ∨ i.isBehaviorInstruction = true) →
      i2.sentence = "Change " ++ i1.sentence ++ " of _PARAM0_: _PARAM"
        ++ toString (i.parameters.length + 2) ++ "_ _PARAM"
        ++ toString (i.parameters.length + 3) ++ "_") ∧
    Contains i2.sentence ("_PARAM" ++ toString i.parameters.length ++ "_") ∧
    Contains i2.sentence ("_PARAM" ++ toString (i.parameters.length + 1) ++ "_") := by
  obtain ⟨hp1, _, hobj1, hbeh1, _⟩ :=
    UseStandardOperatorParameters_frame IsObject IsBehavior (fun s => s) i t1
  obtain ⟨hp2, _, _, _, _⟩ :=
    UseStandardOperatorParameters_frame IsObject IsBehavior (fun s => s) i1 t2
  rw [← h1] at hp1 hobj1 hbeh1
  rw [← h2] at hp2
  have hlen1 : i1.parameters.length = i.parameters.length + 2 := by
    rw [hp1]
    simp
  have hsize1 : i1.parameters.length + 2 < 2 ^ SIZE_WIDTH := by
    rw [hlen1]
    exact hsize
  obtain ⟨htok0, htok1, hno, hnv⟩ := UseStandardOperatorParameters_tokens IsObject
    IsBehavior i t1 (by omega)
  rw [← h1] at htok0 htok1 hno hnv
  have hsent : i2.sentence =
      if i.isObjectInstruction || i.isBehaviorInstruction then
        "Change " ++ (i1.sentence ++ (" of _PARAM0_: " ++ (paramToken (i.parameters.length + 2)
          ++ (" " ++ paramToken (i.parameters.length + 3)))))
      else
        "Change " ++ (i1.sentence ++ (": " ++ (paramToken (i.parameters.length + 2)
          ++ (" " ++ paramToken (i.parameters.length + 3))))) := by
    rw [h2, UseStandardOperatorParameters_sentence IsObject IsBehavior i1 t2 hsize1,
      FindAndReplace_of_not_Contains _ _ _ hno, FindAndReplace_of_not_Contains _ _ _ hnv,
      hobj1, hbeh1, hlen1]
  have hin : ∀ marker : String, Contains i1.sentence marker → Contains i2.sentence marker := by
    intro marker hm
    rw [hsent]
    split <;> exact Contains_append_of_Contains _ _ _ _ hm
  refine ⟨?_, ?_, ?_, hin _ htok0, hin _ htok1⟩
  · rw [hp2, hp1]
    simp
  · rintro ⟨ho, hb⟩
    rw [hsent, sentence_spelling "Change " i1.sentence ": _PARAM" ": " (by decide)]
    simp [ho, hb]
  · intro hflag
    have hc : (i.isObjectInstruction || i.isBehaviorInstruction) = true := by
      simpa using hflag
    rw [hsent, if_pos hc,
      sentence_spelling "Change " i1.sentence " of _PARAM0_: _PARAM" " of _PARAM0_: "
        (by decide)]

/-- C7 on the free sample instruction (no parameter, sentence `"the score"`) with
the types `"number"` and `"string"`: four parameters, and the first sentence
`"Change the score: _PARAM0_ _PARAM1_"` nested in the second. -/
theorem C7_chaining_witness :
    ((sampleFreeInstruction.UseStandardOperatorParameters (fun t => t == "object")
      (fun t => t == "behavior") (fun s => s) "number").UseStandardOperatorParameters
      (fun t => t == "object") (fun t => t == "behavior") (fun s => s)
      "string").parameters.length = 4 ∧
    ((sampleFreeInstruction.UseStandardOperatorParameters (fun t => t == "object")
      (fun t => t == "behavior") (fun s => s) "number").UseStandardOperatorParameters
      (fun t => t == "object") (fun t => t == "behavior") (fun s => s)
      "string").sentence = "Change Change the score: _PARAM0_ _PARAM1_: _PARAM2_ _PARAM3_" :=
  ⟨(C7_chaining (fun t => t == "object") (fun t => t == "behavior") sampleFreeInstruction
      _ _ "number" "string" (by decide) rfl rfl).1,
   ((C7_chaining (fun t => t == "object") (fun t => t == "behavior") sampleFreeInstruction
      _ _ "number" "string" (by decide) rfl rfl).2.1 ⟨rfl, rfl⟩).trans (by decide)⟩

/-- C8. Code-only flag: the parameter appended by `AddCodeOnlyParameter(type, info)`
has `codeOnly = true`, an empty description, `optional = false`, the given type, and
`supplementaryInformation` equal to `info` verbatim, whatever the type classifies
as; the parameter appended by `AddParameter` has `codeOnly = false` and carries the
given type, description and optional flag. -/
theorem C8_codeOnly_flag (IsObject IsBehavior : String → Bool) (i : InstructionMetadata)
    (type info description optionalObjectType : String) (isOptional : Bool) :
    (∃ p : ParameterMetadata,
      (i.AddCodeOnlyParameter type info).parameters = i.parameters ++ [p] ∧
      p.codeOnly = true ∧ p.description = "" ∧ p.optional = false ∧ p.type = type ∧
      p.supplementaryInformation = info) ∧
    (∃ p : ParameterMetadata,
      (i.AddParameter IsObject IsBehavior type description optionalObjectType
        isOptional).parameters = i.parameters ++ [p] ∧
      p.codeOnly = false ∧ p.type = type ∧ p.description = description ∧
      p.optional = isOptional) :=
  ⟨⟨_, rfl, rfl, rfl, rfl, rfl, rfl⟩, ⟨_, rfl, rfl, rfl, rfl, rfl⟩⟩

/-- C9. Default placeholder: the default-constructed `InstructionMetadata` has
`hidden = true`, `usageComplexity = 5`, the literal sentence
`"Unknown or unsupported instruction"`, zero parameters, and
`canHaveSubInstructions`, `isPrivate`, `isObjectInstruction` and
`isBehaviorInstruction` all false. -/
theorem C9_default_placeholder :
    InstructionMetadata.ctor.hidden = true ∧
    InstructionMetadata.ctor.usageComplexity = 5 ∧
    InstructionMetadata.ctor.sentence = "Unknown or unsupported instruction" ∧
    InstructionMetadata.ctor.parameters.length = 0 ∧
    InstructionMetadata.ctor.canHaveSubInstructions = false ∧
    InstructionMetadata.ctor.isPrivate = false ∧
    InstructionMetadata.ctor.isObjectInstruction = false ∧
    InstructionMetadata.ctor.isBehaviorInstruction = false :=
  ⟨rfl, rfl, rfl, rfl, rfl, rfl, rfl, rfl⟩

/-- C10. Full constructor: for all arguments the constructed `InstructionMetadata`
has `hidden = false`, `usageComplexity = 5`, stores `fullname`, `description`,
`sentence`, `group`, `iconFilename`, `smallIconFilename` and `extensionNamespace`
equal to the corresponding arguments, has an empty `helpPath`, zero parameters, and
`canHaveSubInstructions`, `isPrivate`, `isObjectInstruction` and
`isBehaviorInstruction` all false. -/
theorem C10_full_constructor (extensionNamespace name fullname description sentence group
    icon smallIcon : String) :
    (InstructionMetadata.ctorFull extensionNamespace name fullname description sentence
      group icon smallIcon).hidden = false ∧
    (InstructionMetadata.ctorFull extensionNamespace name fullname description sentence
      group icon smallIcon).usageComplexity = 5 ∧
    (InstructionMetadata.ctorFull extensionNamespace name fullname description sentence
      group icon smallIcon).fullname = fullname ∧
    (InstructionMetadata.ctorFull extensionNamespace name fullname description sentence
      group icon smallIcon).description = description ∧
    (InstructionMetadata.ctorFull extensionNamespace name fullname description sentence
      group icon smallIcon).sentence = sentence ∧
    (InstructionMetadata.ctorFull extensionNamespace name fullname description sentence
      group icon smallIcon).group = group ∧
    (InstructionMetadata.ctorFull extensionNamespace name fullname description sentence
      group icon smallIcon).iconFilename = icon ∧
    (InstructionMetadata.ctorFull extensionNamespace name fullname description sentence
      group icon smallIcon).smallIconFilename = smallIcon ∧
    (InstructionMetadata.ctorFull extensionNamespace name fullname description sentence
      group icon smallIcon).extensionNamespace = extensionNamespace ∧
    (InstructionMetadata.ctorFull extensionNamespace name fullname description sentence
      group icon smallIcon).helpPath = "" ∧
    (InstructionMetadata.ctorFull extensionNamespace name fullname description sentence
      group icon smallIcon).parameters.length = 0 ∧
    (InstructionMetadata.ctorFull extensionNamespace name fullname description sentence
      group icon smallIcon).canHaveSubInstructions = false ∧
    (InstructionMetadata.ctorFull extensionNamespace name fullname description sentence
      group icon smallIcon).isPrivate = false ∧
    (InstructionMetadata.ctorFull extensionNamespace name fullname description sentence
      group icon smallIcon).isObjectInstruction = false ∧
    (InstructionMetadata.ctorFull extensionNamespace name fullname description sentence
      group icon smallIcon).isBehaviorInstruction = false :=
  ⟨rfl, rfl, rfl, rfl, rfl, rfl, rfl, rfl, rfl, rfl, rfl, rfl, rfl, rfl, rfl⟩

/-- C11. Total serialization under the documented names: for every
`ParameterMetadata p` and every tree `e`, after `p.SerializeTo(e)` the tree holds
each of the attributes `type`, `supplementaryInformation`, `optional`,
`description`, `longDescription`, `codeOnly`, `defaultValue` and `name`, set to the
value of the field of the same name; every other name is left as it was in `e`, so
no attribute under another name is written; and for the object whose strings are all
empty and whose booleans are all false the eight attributes are written to an empty
tree, none skipped. -/
theorem C11_total_serialization (p : ParameterMetadata) (e : SerializerElement) :
    (p.SerializeTo e).attributes.lookup "type" = some (.stringValue p.type) ∧
    (p.SerializeTo e).attributes.lookup "supplementaryInformation"
      = some (.stringValue p.supplementaryInformation) ∧
    (p.SerializeTo e).attributes.lookup "optional" = some (.boolValue p.optional) ∧
    (p.SerializeTo e).attributes.lookup "description" = some (.stringValue p.description) ∧
    (p.SerializeTo e).attributes.lookup "longDescription"
      = some (.stringValue p.longDescription) ∧
    (p.SerializeTo e).attributes.lookup "codeOnly" = some (.boolValue p.codeOnly) ∧
    (p.SerializeTo e).attributes.lookup "defaultValue"
      = some (.stringValue p.defaultValue) ∧
    (p.SerializeTo e).attributes.lookup "name" = some (.stringValue p.name) ∧
    (∀ other : String, other ∉ serializedAttributeNames →
      (p.SerializeTo e).attributes.lookup other = e.attributes.lookup other) ∧
    (ParameterMetadata.ctor.SerializeTo SerializerElement.empty).attributes =
      [("name", .stringValue ""), ("defaultValue", .stringValue ""),
       ("codeOnly", .boolValue false), ("longDescription", .stringValue ""),
       ("description", .stringValue ""), ("optional", .boolValue false),
       ("supplementaryInformation", .stringValue ""), ("type", .stringValue "")] := by
  refine ⟨?_, ?_, ?_, ?_, ?_, ?_, ?_, ?_, ?_, ?_⟩
  · rw [lookup_SerializeTo]
    rfl
  · rw [lookup_SerializeTo]
    rfl
  · rw [lookup_SerializeTo]
    rfl
  · rw [lookup_SerializeTo]
    rfl
  · rw [lookup_SerializeTo]
    rfl
  · rw [lookup_SerializeTo]
    rfl
  · rw [lookup_SerializeTo]
    rfl
  · rw [lookup_SerializeTo]
    rfl
  · intro other h
    simp only [serializedAttributeNames, List.mem_cons, List.mem_singleton, not_or,
      List.not_mem_nil, or_false] at h
    obtain ⟨h1, h2, h3, h4, h5, h6, h7, h8⟩ := h
    rw [lookup_SerializeTo, if_neg h8, if_neg h7, if_neg h6, if_neg h5, if_neg h4, if_neg h3,
      if_neg h2, if_neg h1]
  · rw [SerializeTo_empty_attributes]
    rfl

/-- C11 on a tree that already holds an attribute `"extra"` and an older `"type"`:
the older `"type"` is replaced, `"extra"` is kept, and a name that was never
written stays absent. -/
theorem C11_total_serialization_witness :
    ((({ ParameterMetadata.ctor with type := "number" }).SerializeTo
      { attributes := [("extra", .boolValue true), ("type", .stringValue "old")] }
      ).attributes.lookup "type" = some (.stringValue "number")) ∧
    ((({ ParameterMetadata.ctor with type := "number" }).SerializeTo
      { attributes := [("extra", .boolValue true), ("type", .stringValue "old")] }
      ).attributes.lookup "extra" = some (.boolValue true)) ∧
    ((({ ParameterMetadata.ctor with type := "number" }).SerializeTo
      { attributes := [("extra", .boolValue true), ("type", .stringValue "old")] }
      ).attributes.lookup "other" = none) :=
  ⟨(C11_total_serialization _ _).1,
   ((C11_total_serialization _ _).2.2.2.2.2.2.2.2.1 "extra" (by decide)).trans (by decide),
   ((C11_total_serialization _ _).2.2.2.2.2.2.2.2.1 "other" (by decide)).trans (by decide)⟩

/-- C12. Defaults on unserialization: for every tree `e` and every target `q`,
`q.UnserializeFrom(e)` returns an object (the operation is total) in which each
field whose attribute is absent from `e` is the per-type default, the empty string
for `type`, `supplementaryInformation`, `description`, `longDescription`,
`defaultValue` and `name`, and `false` for `optional` and `codeOnly`, whatever the
field held in `q`; unserializing from the empty tree resets all eight fields. -/
theorem C12_unserialization_defaults (q : ParameterMetadata) (e : SerializerElement) :
    (e.attributes.lookup "type" = none → (q.UnserializeFrom e).type = "") ∧
    (e.attributes.lookup "supplementaryInformation" = none →
      (q.UnserializeFrom e).supplementaryInformation = "") ∧
    (e.attributes.lookup "optional" = none → (q.UnserializeFrom e).optional = false) ∧
    (e.attributes.lookup "description" = none → (q.UnserializeFrom e).description = "") ∧
    (e.attributes.lookup "longDescription" = none →
      (q.UnserializeFrom e).longDescription = "") ∧
    (e.attributes.lookup "codeOnly" = none → (q.UnserializeFrom e).codeOnly = false) ∧
    (e.attributes.lookup "defaultValue" = none → (q.UnserializeFrom e).defaultValue = "") ∧
    (e.attributes.lookup "name" = none → (q.UnserializeFrom e).name = "") ∧
    q.UnserializeFrom SerializerElement.empty = ParameterMetadata.ctor := by
  refine ⟨?_, ?_, ?_, ?_, ?_, ?_, ?_, ?_, rfl⟩ <;>
    · intro h
      simp [ParameterMetadata.UnserializeFrom, SerializerElement.GetStringAttribute,
        SerializerElement.GetBoolAttribute, h]

/-- C12 on a target whose eight fields are all set and a tree that holds only
`"type"` and `"codeOnly"`: the six fields without an attribute are reset to the
empty string and `false`. -/
theorem C12_unserialization_defaults_witness :
    (ParameterMetadata.UnserializeFrom
      { type := "object", supplementaryInformation := "Ext::Sprite", optional := true,
        description := "d", longDescription := "long", codeOnly := false,
        defaultValue := "v", name := "n" }
      { attributes := [("type", .stringValue "number"), ("codeOnly", .boolValue true)] }
      ).supplementaryInformation = "" ∧
    (ParameterMetadata.UnserializeFrom
      { type := "object", supplementaryInformation := "Ext::Sprite", optional := true,
        description := "d", longDescription := "long", codeOnly := false,
        defaultValue := "v", name := "n" }
      { attributes := [("type", .stringValue "number"), ("codeOnly", .boolValue true)] }
      ).optional = false ∧
    (ParameterMetadata.UnserializeFrom
      { type := "object", supplementaryInformation := "Ext::Sprite", optional := true,
        description := "d", longDescription := "long", codeOnly := false,
        defaultValue := "v", name := "n" }
      { attributes := [("type", .stringValue "number"), ("codeOnly", .boolValue true)] }
      ).name = "" :=
  ⟨(C12_unserialization_defaults _ _).2.1 (by decide),
   (C12_unserialization_defaults _ _).2.2.1 (by decide),
   (C12_unserialization_defaults _ _).2.2.2.2.2.2.2.1 (by decide)⟩

/-- C13, as stated, fails. `SerializeTo` applied to the empty tree by the
default-constructed `ParameterMetadata` leaves eight attributes in the tree, not
nine. -/
theorem C13_counterexample :
    (ParameterMetadata.ctor.SerializeTo SerializerElement.empty).attributes.length = 8 ∧
    (ParameterMetadata.ctor.SerializeTo SerializerElement.empty).attributes.length ≠ 9 := by
  decide

/-- C13, amended. Number of serialized attributes: for every `ParameterMetadata p`,
`SerializeTo` applied to an empty tree writes eight named attributes, one per field
of `ParameterMetadata`: the tree then holds exactly the eight names of the source,
each with the value of its field. `UnserializeFrom` reads the same eight attributes
back: it restores `p`, and its result is the same on two trees that agree on the
eight names. -/
theorem C13_eight_attributes (p q : ParameterMetadata) :
    (p.SerializeTo SerializerElement.empty).attributes.length = 8 ∧
    (p.SerializeTo SerializerElement.empty).attributes.map Prod.fst
      = serializedAttributeNames.reverse ∧
    (p.SerializeTo SerializerElement.empty).attributes =
      [("name", .stringValue p.name), ("defaultValue", .stringValue p.defaultValue),
       ("codeOnly", .boolValue p.codeOnly),
       ("longDescription", .stringValue p.longDescription),
       ("description", .stringValue p.description), ("optional", .boolValue p.optional),
       ("supplementaryInformation", .stringValue p.supplementaryInformation),
       ("type", .stringValue p.type)] ∧
    q.UnserializeFrom (p.SerializeTo SerializerElement.empty) = p ∧
    (∀ e1 e2 : SerializerElement,
      (∀ key ∈ serializedAttributeNames,
        e1.attributes.lookup key = e2.attributes.lookup key) →
      q.UnserializeFrom e1 = q.UnserializeFrom e2) := by
  refine ⟨?_, ?_, SerializeTo_empty_attributes p, UnserializeFrom_SerializeTo_eq p q _,
    UnserializeFrom_congr q⟩
  · rw [SerializeTo_empty_attributes]
    rfl
  · rw [SerializeTo_empty_attributes]
    rfl

/-- C13, amended, on a parameter of type `"number"`: eight attributes, and a tree
that holds a ninth attribute `"extra"` beside them is read back to the same
object. -/
theorem C13_eight_attributes_witness :
    (({ ParameterMetadata.ctor with type := "number" }).SerializeTo
      SerializerElement.empty).attributes.length = 8 ∧
    ParameterMetadata.ctor.UnserializeFrom
      ((({ ParameterMetadata.ctor with type := "number" }).SerializeTo
        SerializerElement.empty).SetAttribute "extra" (.boolValue true))
      = { ParameterMetadata.ctor with type := "number" } :=
  ⟨(C13_eight_attributes { ParameterMetadata.ctor with type := "number" }
      ParameterMetadata.ctor).1,
   ((C13_eight_attributes { ParameterMetadata.ctor with type := "number" }
      ParameterMetadata.ctor).2.2.2.2 _
      (({ ParameterMetadata.ctor with type := "number" }).SerializeTo
        SerializerElement.empty) (by decide)).trans
    (C13_eight_attributes { ParameterMetadata.ctor with type := "number" }
      ParameterMetadata.ctor).2.2.2.1⟩

/-- C14. The extension namespace is immutable after construction: for every
instruction built by the full constructor with namespace `ns` and every finite
sequence of `AddParameter`, `AddCodeOnlyParameter`, `UseStandardOperatorParameters`
and `UseStandardRelationalOperatorParameters` calls with arbitrary arguments,
`extensionNamespace` still equals `ns` afterwards. -/
theorem C14_extensionNamespace_immutable (IsObject IsBehavior : String → Bool)
    (translate : String → String)
    (ns name fullname description sentence group icon smallIcon : String)
    (calls : List BuilderCall) :
    ((InstructionMetadata.ctorFull ns name fullname description sentence group icon
      smallIcon).applyCalls IsObject IsBehavior translate calls).extensionNamespace = ns := by
  rw [applyCalls_extensionNamespace]
  rfl

/-- C15. Parameters are append-only and positions are stable: for each of
`AddParameter`, `AddCodeOnlyParameter`, `UseStandardOperatorParameters` and
`UseStandardRelationalOperatorParameters` the parameter list before the call is a
prefix of the list after it, the length grows by exactly 1 for the two add
operations and by exactly 2 for the two templating operations, and `AddParameter`
and `AddCodeOnlyParameter` change no field of the instruction other than
`parameters`. -/
theorem C15_parameters_append_only (IsObject IsBehavior : String → Bool)
    (translate : String → String) (i : InstructionMetadata)
    (type description optionalObjectType info : String) (isOptional : Bool) :
    (i.parameters <+: (i.AddParameter IsObject IsBehavior type description
        optionalObjectType isOptional).parameters ∧
      (i.AddParameter IsObject IsBehavior type description optionalObjectType
        isOptional).parameters.length = i.parameters.length + 1 ∧
      i.AddParameter IsObject IsBehavior type description optionalObjectType isOptional
        = { i with parameters := (i.AddParameter IsObject IsBehavior type description
              optionalObjectType isOptional).parameters }) ∧
    (i.parameters <+: (i.AddCodeOnlyParameter type info).parameters ∧
      (i.AddCodeOnlyParameter type info).parameters.length = i.parameters.length + 1 ∧
      i.AddCodeOnlyParameter type info
        = { i with parameters := (i.AddCodeOnlyParameter type info).parameters }) ∧
    (i.parameters <+: (i.UseStandardOperatorParameters IsObject IsBehavior translate
        type).parameters ∧
      (i.UseStandardOperatorParameters IsObject IsBehavior translate type).parameters.length
        = i.parameters.length + 2) ∧
    (i.parameters <+: (i.UseStandardRelationalOperatorParameters IsObject IsBehavior translate
        type).parameters ∧
      (i.UseStandardRelationalOperatorParameters IsObject IsBehavior translate
        type).parameters.length = i.parameters.length + 2) := by
  have h1 := (UseStandardOperatorParameters_frame IsObject IsBehavior translate i type).1
  have h2 :=
    (UseStandardRelationalOperatorParameters_frame IsObject IsBehavior translate i type).1
  refine ⟨⟨List.prefix_append _ _, by simp [InstructionMetadata.AddParameter], rfl⟩,
    ⟨List.prefix_append _ _, by simp [InstructionMetadata.AddCodeOnlyParameter], rfl⟩,
    ⟨?_, ?_⟩, ⟨?_, ?_⟩⟩
  · rw [h1]
    exact List.prefix_append _ _
  · rw [h1]
    simp
  · rw [h2]
    exact List.prefix_append _ _
  · rw [h2]
    simp

/-- C16. The index computation never underflows: for every instruction holding
`n` parameters, also `n = 0` (with `n + 2` in the range of `size_t`), in
`UseStandardOperatorParameters` and `UseStandardRelationalOperatorParameters` the
computations `parameters.size() - 2` and `parameters.size() - 1` are made on a list
of `n + 2 ≥ 2` elements, so they do not wrap around and equal `n` and `n + 1`; these
are the positions of the two newly appended parameters and both are smaller than the
new parameter count. -/
theorem C16_indices_do_not_wrap (IsObject IsBehavior : String → Bool)
    (translate : String → String) (i : InstructionMetadata) (t : String)
    (hsize : i.parameters.length + 2 < 2 ^ SIZE_WIDTH) :
    (i.UseStandardOperatorParameters_indices IsObject IsBehavior translate t
        = (i.parameters.length, i.parameters.length + 1) ∧
      ∃ p1 p2 : ParameterMetadata,
        (i.UseStandardOperatorParameters IsObject IsBehavior translate t).parameters
          = i.parameters ++ [p1, p2] ∧
        2 ≤ (i.UseStandardOperatorParameters IsObject IsBehavior translate
          t).parameters.length ∧
        (i.UseStandardOperatorParameters IsObject IsBehavior translate t).parameters[
          (i.UseStandardOperatorParameters_indices IsObject IsBehavior translate t).1]?
          = some p1 ∧
        (i.UseStandardOperatorParameters IsObject IsBehavior translate t).parameters[
          (i.UseStandardOperatorParameters_indices IsObject IsBehavior translate t).2]?
          = some p2 ∧
        (i.UseStandardOperatorParameters_indices IsObject IsBehavior translate t).1
          < (i.UseStandardOperatorParameters IsObject IsBehavior translate
            t).parameters.length ∧
        (i.UseStandardOperatorParameters_indices IsObject IsBehavior translate t).2
          < (i.UseStandardOperatorParameters IsObject IsBehavior translate
            t).parameters.length) ∧
    (i.UseStandardRelationalOperatorParameters_indices IsObject IsBehavior translate t
        = (i.parameters.length, i.parameters.length + 1) ∧
      ∃ p1 p2 : ParameterMetadata,
        (i.UseStandardRelationalOperatorParameters IsObject IsBehavior translate t).parameters
          = i.parameters ++ [p1, p2] ∧
        2 ≤ (i.UseStandardRelationalOperatorParameters IsObject IsBehavior translate
          t).parameters.length ∧
        (i.UseStandardRelationalOperatorParameters IsObject IsBehavior translate
          t).parameters[(i.UseStandardRelationalOperatorParameters_indices IsObject
            IsBehavior translate t).1]? = some p1 ∧
        (i.UseStandardRelationalOperatorParameters IsObject IsBehavior translate
          t).parameters[(i.UseStandardRelationalOperatorParameters_indices IsObject
            IsBehavior translate t).2]? = some p2 ∧
        (i.UseStandardRelationalOperatorParameters_indices IsObject IsBehavior translate t).1
          < (i.UseStandardRelationalOperatorParameters IsObject IsBehavior translate
            t).parameters.length ∧
        (i.UseStandardRelationalOperatorParameters_indices IsObject IsBehavior translate t).2
          < (i.UseStandardRelationalOperatorParameters IsObject IsBehavior translate
            t).parameters.length) := by
  have hp1 := (UseStandardOperatorParameters_frame IsObject IsBehavior translate i t).1
  have hp2 :=
    (UseStandardRelationalOperatorParameters_frame IsObject IsBehavior translate i t).1
  have hi1 := UseStandardOperatorParameters_indices_eq IsObject IsBehavior translate i t hsize
  have hi2 :=
    UseStandardRelationalOperatorParameters_indices_eq IsObject IsBehavior translate i t hsize
  refine ⟨⟨hi1, _, _, hp1, ?_, ?_, ?_, ?_, ?_⟩, ⟨hi2, _, _, hp2, ?_, ?_, ?_, ?_, ?_⟩⟩
  · rw [hp1]
    simp
  · rw [hi1, hp1]
    exact getElem?_append_pair_left _ _ _
  · rw [hi1, hp1]
    exact getElem?_append_pair_right _ _ _
  · rw [hi1, hp1]
    simp
  · rw [hi1, hp1]
    simp
  · rw [hp2]
    simp
  · rw [hi2, hp2]
    exact getElem?_append_pair_left _ _ _
  · rw [hi2, hp2]
    exact getElem?_append_pair_right _ _ _
  · rw [hi2, hp2]
    simp
  · rw [hi2, hp2]
    simp

/-- C16 on the free sample instruction, which has no parameter: both operations
compute the indices `0` and `1`. -/
theorem C16_indices_do_not_wrap_witness :
    sampleFreeInstruction.parameters.length = 0 ∧
    sampleFreeInstruction.UseStandardOperatorParameters_indices (fun t => t == "object")
      (fun t => t == "behavior") (fun s => s) "number" = (0, 1) ∧
    sampleFreeInstruction.UseStandardRelationalOperatorParameters_indices
      (fun t => t == "object") (fun t => t == "behavior") (fun s => s) "number" = (0, 1) :=
  ⟨rfl,
   (C16_indices_do_not_wrap (fun t => t == "object") (fun t => t == "behavior") (fun s => s)
      sampleFreeInstruction "number" (by decide)).1.1,
   (C16_indices_do_not_wrap (fun t => t == "object") (fun t => t == "behavior") (fun s => s)
      sampleFreeInstruction "number" (by decide)).2.1⟩

/-- C17. Missing subject parameter is not validated: for every instruction with
`isObjectInstruction` or `isBehaviorInstruction` set and zero parameters, with a
sentence `s` containing none of the three markers, `UseStandardOperatorParameters(t)`
still produces a sentence, `"Change " ++ s ++ " of _PARAM0_: _PARAM0_ _PARAM1_"`, in
which the placeholder `_PARAM0_` of the implicit object and the operator placeholder
are the same token, and `parameters[0]` is the newly appended parameter of type
`"operator"`. -/
theorem C17_missing_subject_not_validated (IsObject IsBehavior : String → Bool)
    (i : InstructionMetadata) (t : String)
    (hflag : i.isObjectInstruction = true ∨ i.isBehaviorInstruction = true)
    (hempty : i.parameters = [])
    (hs : ¬ Contains i.sentence "<subject>") (ho : ¬ Contains i.sentence "<operator>")
    (hv : ¬ Contains i.sentence "<value>") :
    (i.UseStandardOperatorParameters IsObject IsBehavior (fun s => s) t).sentence
      = "Change " ++ i.sentence ++ " of _PARAM0_: _PARAM0_ _PARAM1_" ∧
    paramToken (i.UseStandardOperatorParameters_indices IsObject IsBehavior (fun s => s) t).1
      = "_PARAM0_" ∧
    ∃ p : ParameterMetadata,
      (i.UseStandardOperatorParameters IsObject IsBehavior (fun s => s) t).parameters[0]?
        = some p ∧
      p.type = "operator" := by
  have _hs := hs
  have hlen : i.parameters.length = 0 := by simp [hempty]
  have hsize : i.parameters.length + 2 < 2 ^ SIZE_WIDTH := by
    rw [hlen]
    decide
  have hc : (i.isObjectInstruction || i.isBehaviorInstruction) = true := by simpa using hflag
  have hlit : (" of _PARAM0_: _PARAM0_ _PARAM1_" : String)
      = " of _PARAM0_: " ++ (paramToken 0 ++ (" " ++ paramToken (0 + 1))) := by decide
  refine ⟨?_, ?_,
    { ParameterMetadata.ctor with type := "operator", description := "Modification's sign" },
    ?_, rfl⟩
  · rw [UseStandardOperatorParameters_sentence IsObject IsBehavior i t hsize, if_pos hc,
      FindAndReplace_of_not_Contains _ _ _ ho, FindAndReplace_of_not_Contains _ _ _ hv,
      hlen, hlit, String.append_assoc]
  · rw [UseStandardOperatorParameters_indices_eq IsObject IsBehavior _ i t hsize, hlen]
    rfl
  · rw [(UseStandardOperatorParameters_frame IsObject IsBehavior (fun s => s) i t).1, hempty]
    rfl

/-- C17 on an object instruction registered without its object parameter: the
sentence `"the X"` becomes `"Change the X of _PARAM0_: _PARAM0_ _PARAM1_"`. -/
theorem C17_missing_subject_not_validated_witness :
    (InstructionMetadata.UseStandardOperatorParameters (fun t => t == "object")
      (fun t => t == "behavior") (fun s => s)
      { sampleFreeInstruction with sentence := "the X", isObjectInstruction := true }
      "number").sentence = "Change the X of _PARAM0_: _PARAM0_ _PARAM1_" :=
  ((C17_missing_subject_not_validated (fun t => t == "object") (fun t => t == "behavior")
    { sampleFreeInstruction with sentence := "the X", isObjectInstruction := true }
    "number" (Or.inl rfl) rfl (by decide) (by decide) (by decide)).1).trans (by decide)

/-- C18. Marker elimination for arbitrary previous sentences: for every
instruction, whatever its flags and its current sentence `s` (also one that holds
marker text), with `n + 2` in the range of `size_t`, after
`UseStandardOperatorParameters` or `UseStandardRelationalOperatorParameters` the new
sentence contains no occurrence of `<operator>` and no occurrence of `<value>`, and
it contains `<subject>` if and only if `s` contained `<subject>`. -/
theorem C18_marker_elimination (IsObject IsBehavior : String → Bool)
    (i : InstructionMetadata) (t : String)
    (hsize : i.parameters.length + 2 < 2 ^ SIZE_WIDTH) :
    (¬ Contains (i.UseStandardOperatorParameters IsObject IsBehavior (fun s => s) t).sentence
        "<operator>" ∧
      ¬ Contains (i.UseStandardOperatorParameters IsObject IsBehavior (fun s => s) t).sentence
        "<value>" ∧
      (Contains (i.UseStandardOperatorParameters IsObject IsBehavior (fun s => s) t).sentence
        "<subject>" ↔ Contains i.sentence "<subject>")) ∧
    (¬ Contains (i.UseStandardRelationalOperatorParameters IsObject IsBehavior (fun s => s)
        t).sentence "<operator>" ∧
      ¬ Contains (i.UseStandardRelationalOperatorParameters IsObject IsBehavior (fun s => s)
        t).sentence "<value>" ∧
      (Contains (i.UseStandardRelationalOperatorParameters IsObject IsBehavior (fun s => s)
        t).sentence "<subject>" ↔ Contains i.sentence "<subject>")) := by
  constructor
  · rw [UseStandardOperatorParameters_sentence IsObject IsBehavior i t hsize]
    split
    · exact rewritten_sentence_markers "Change " " of _PARAM0_: " i.sentence _ _
        (by decide) (by decide)
    · exact rewritten_sentence_markers "Change " ": " i.sentence _ _ (by decide) (by decide)
  · rw [UseStandardRelationalOperatorParameters_sentence IsObject IsBehavior i t hsize]
    split
    · rw [← empty_append_eq (_ ++ (" of _PARAM0_ " ++ _))]
      exact rewritten_sentence_markers "" " of _PARAM0_ " i.sentence _ _
        (by decide) (by decide)
    · rw [← empty_append_eq (_ ++ (" " ++ _))]
      exact rewritten_sentence_markers "" " " i.sentence _ _ (by decide) (by decide)

/-- C18 on the free instruction whose sentence is
`"<subject> and <value> and <operator>"`: after `UseStandardOperatorParameters` the
sentence is `"Change <subject> and _PARAM1_ and _PARAM0_: _PARAM0_ _PARAM1_"`, with
the subject marker kept and the other two markers replaced. -/
theorem C18_marker_elimination_witness :
    (InstructionMetadata.UseStandardOperatorParameters (fun t => t == "object")
      (fun t => t == "behavior") (fun s => s)
      { sampleFreeInstruction with sentence := "<subject> and <value> and <operator>" }
      "number").sentence = "Change <subject> and _PARAM1_ and _PARAM0_: _PARAM0_ _PARAM1_" ∧
    ¬ Contains (InstructionMetadata.UseStandardOperatorParameters (fun t => t == "object")
      (fun t => t == "behavior") (fun s => s)
      { sampleFreeInstruction with sentence := "<subject> and <value> and <operator>" }
      "number").sentence "<operator>" ∧
    Contains (InstructionMetadata.UseStandardOperatorParameters (fun t => t == "object")
      (fun t => t == "behavior") (fun s => s)
      { sampleFreeInstruction with sentence := "<subject> and <value> and <operator>" }
      "number").sentence "<subject>" :=
  ⟨by decide,
   (C18_marker_elimination (fun t => t == "object") (fun t => t == "behavior")
      { sampleFreeInstruction with sentence := "<subject> and <value> and <operator>" }
      "number" (by decide)).1.1,
   (C18_marker_elimination (fun t => t == "object") (fun t => t == "behavior")
      { sampleFreeInstruction with sentence := "<subject> and <value> and <operator>" }
      "number" (by decide)).1.2.2.mpr (by decide)⟩

end gd
